import Mathlib

/-! # Object-size resolver of `libc/bionic/__dynamic_object_size.cpp`

A shallow embedding of the runtime object-size resolver, the load-range scanner and the
fortified I/O wrappers, followed by theorems about them.

Conventions of the embedding
* addresses, `size_t` and `ElfW(Addr)` values are natural numbers; the null pointer is `0`;
  arithmetic that can leave the machine word is reduced modulo `2 ^ ptr_bits`;
* `ssize_t`, `int`, `off_t`, `off64_t` and `pid_t` values are integers;
* the external collaborators (`__malloc_object_size`, the `__unchecked_*` primitives) are oracle
  functions of the calling context, and every call of one is recorded in a trace;
* a run of a function is a pair: the trace of collaborator calls, and how the run ended
  (a returned value, `__libc_fatal`, or `__fortify_chk_fail`).
-/

namespace Bionic

/-! ## Platform parameters -/

/-- Platform constants the source takes from headers that are not part of the file:
the width in bits of a pointer / `size_t` / `ElfW(Addr)`, and `PAGE_SIZE`. -/
structure Target where
  ptr_bits : Nat
  PAGE_SIZE : Nat
  deriving Repr, DecidableEq

/-- Number of values of a machine word: `2 ^ ptr_bits`. -/
def Target.modulus (T : Target) : Nat := 2 ^ T.ptr_bits

/-- The C constant `UINTPTR_MAX`. -/
def UINTPTR_MAX (T : Target) : Nat := T.modulus - 1

/-- Modelled from the spec: the macro `__BIONIC_FORTIFY_UNKNOWN_SIZE` is defined in a header
outside the source file. The spec calls it the Unknown sentinel, "a sentinel result meaning no
usable bound could be determined, treated as permissive rather than as a violation"; since the
wrappers abort exactly when the declared length exceeds the resolved size, the permissive value
is the largest `size_t`, the all-ones value `((size_t) -1)`. -/
def __BIONIC_FORTIFY_UNKNOWN_SIZE (T : Target) : Nat := T.modulus - 1

/-! ## Process state and thread descriptor -/

/-- The fields of `libc_globals` the file uses. -/
structure libc_globals where
  enable_object_size_checks : Bool
  executable_start : Nat
  executable_end : Nat
  main_thread_stack_top : Nat
  deriving Repr, DecidableEq

/-- The fields of `pthread_attr_t` the file uses. -/
structure pthread_attr_t where
  stack_base : Nat
  stack_size : Nat
  deriving Repr, DecidableEq

/-- The fields of `pthread_internal_t` the file uses. -/
structure pthread_internal_t where
  tid : Int
  in_malloc : Bool
  attr : pthread_attr_t
  deriving Repr, DecidableEq

/-! ## Runs: trace of collaborator calls and outcome -/

/-- A call of one of the `__unchecked_*` primitives, with the arguments it receives. -/
inductive UncheckedCall where
  | __unchecked___readlink_chk (path buf size buf_size : Nat)
  | __unchecked_readlinkat (dirfd : Int) (path buf size : Nat)
  | __unchecked___readlinkat_chk (dirfd : Int) (path buf size buf_size : Nat)
  | __unchecked_getcwd (buf size : Nat)
  | __unchecked___getcwd_chk (buf len buflen : Nat)
  | __unchecked_read (fd : Int) (buf count : Nat)
  | __unchecked___read_chk (fd : Int) (buf count buf_size : Nat)
  | __unchecked_write (fd : Int) (buf count : Nat)
  | __unchecked___write_chk (fd : Int) (buf count buf_size : Nat)
  | __unchecked_pread64 (fd : Int) (buf byte_count : Nat) (offset : Int)
  | __unchecked_pwrite64 (fd : Int) (buf byte_count : Nat) (offset : Int)
  | __unchecked_recvfrom (fd : Int) (buf len : Nat) (flags : Int) (src_addr addr_len : Nat)
  | __unchecked___recvfrom_chk (socket : Int) (buf len buflen : Nat) (flags : Int)
      (src_addr addrlen : Nat)
  | __unchecked_sendto (fd : Int) (buf len : Nat) (flags : Int) (dest_addr addr_len : Nat)
  | __unchecked___sendto_chk (socket : Int) (buf len buflen : Nat) (flags : Int)
      (dest_addr addrlen : Nat)
  deriving Repr, DecidableEq

/-- A call of an external collaborator made during a run. -/
inductive Event where
  | malloc_object_size (ptr : Nat)
  | unchecked (call : UncheckedCall)
  deriving Repr, DecidableEq

/-- How a run ends: it returns a value, or the process is terminated by
`__libc_fatal("%p is an invalid object address (in unused stack space %p-%p)", ptr, stack_base,
stack_frame)`, or by `__fortify_chk_fail(msg, 0)`. -/
inductive Outcome (α : Type) where
  | ret (v : α)
  | libc_fatal (ptr stack_base stack_frame : Nat)
  | fortify_chk_fail (msg : String)
  deriving Repr, DecidableEq

/-- A run: the collaborator calls made, in order, and the outcome. -/
abbrev Run (α : Type) := List Event × Outcome α

/-- Sequencing of runs: a terminated run stays terminated, otherwise the traces are joined. -/
def Run.bind {α β : Type} (r : Run α) (f : α → Run β) : Run β :=
  match r with
  | (es, .ret v) => (es ++ (f v).1, (f v).2)
  | (es, .libc_fatal p b s) => (es, .libc_fatal p b s)
  | (es, .fortify_chk_fail m) => (es, .fortify_chk_fail m)

instance : Monad Run where
  pure v := ([], .ret v)
  bind := Run.bind

/-- The `__unchecked_*` calls of a trace, in order. -/
def unchecked_calls : List Event → List UncheckedCall
  | [] => []
  | .unchecked c :: es => c :: unchecked_calls es
  | .malloc_object_size _ :: es => unchecked_calls es

/-- The `__malloc_object_size` queries of a trace, in order. -/
def malloc_queries : List Event → List Nat
  | [] => []
  | .malloc_object_size p :: es => p :: malloc_queries es
  | .unchecked _ :: es => malloc_queries es

/-! ## Calling context -/

/-- Everything a call reads from its environment: the platform, `__libc_globals`, the descriptor
returned by `__get_thread()`, the value of `getpid()`, the value of
`__builtin_frame_address(0)` inside `__dynamic_object_size`, and the answers of the external
collaborators (`__malloc_object_size`; the `__unchecked_*` primitives returning `ssize_t`; the
`__unchecked_*` primitives returning `char*`). -/
structure Ctx where
  T : Target
  globals : libc_globals
  thread : pthread_internal_t
  pid : Int
  frame : Nat
  malloc_answer : Nat → Nat
  unchecked_answer : UncheckedCall → Int
  unchecked_ptr_answer : UncheckedCall → Nat

/-- The external `__malloc_object_size(ptr)`: recorded in the trace, answered by the context. -/
def __malloc_object_size (c : Ctx) (ptr : Nat) : Run Nat :=
  ([.malloc_object_size ptr], .ret (c.malloc_answer ptr))

/-- A call of an `__unchecked_*` primitive returning `ssize_t`. -/
def call_unchecked (c : Ctx) (call : UncheckedCall) : Run Int :=
  ([.unchecked call], .ret (c.unchecked_answer call))

/-- A call of an `__unchecked_*` primitive returning `char*`. -/
def call_unchecked_ptr (c : Ctx) (call : UncheckedCall) : Run Nat :=
  ([.unchecked call], .ret (c.unchecked_ptr_answer call))

/-- The external `__fortify_chk_fail(msg, 0)`: terminates the process. -/
def __fortify_chk_fail {α : Type} (msg : String) : Run α := ([], .fortify_chk_fail msg)

/-- The external `__libc_fatal` as called on line 40: terminates the process. -/
def __libc_fatal {α : Type} (ptr stack_base stack_frame : Nat) : Run α :=
  ([], .libc_fatal ptr stack_base stack_frame)

/-! ## The resolver -/

/-- Lines 24-36 of `__dynamic_object_size`: the pair `(stack_base, stack_top)` for the calling
thread. Both start as `nullptr`; the main thread (`tid == getpid()`) takes the frame address and
the recorded top when a top is recorded; any other thread takes them from its attributes. -/
def stack_bounds (c : Ctx) : Nat × Nat :=
  if c.thread.tid = c.pid then
    if c.globals.main_thread_stack_top ≠ 0 then
      (c.frame, c.globals.main_thread_stack_top)
    else
      (0, 0)
  else
    (c.thread.attr.stack_base,
      (c.thread.attr.stack_base + c.thread.attr.stack_size) % c.T.modulus)

/-- The function `__dynamic_object_size(ptr)`. -/
def __dynamic_object_size (c : Ctx) (ptr : Nat) : Run Nat :=
  if !c.globals.enable_object_size_checks || c.thread.in_malloc then
    pure (__BIONIC_FORTIFY_UNKNOWN_SIZE c.T)
  else
    let stack_base := (stack_bounds c).1
    let stack_top := (stack_bounds c).2
    let stack_frame := c.frame
    if ptr > stack_base ∧ ptr < stack_top then
      if ptr < stack_frame then
        __libc_fatal ptr stack_base stack_frame
      else
        pure (stack_top - ptr)
    else if ptr > c.globals.executable_start ∧ ptr < c.globals.executable_end then
      pure (c.globals.executable_end - ptr)
    else
      __malloc_object_size c ptr

/-- The fields of `ElfW(Phdr)` the file uses. -/
structure Phdr where
  p_type : Nat
  p_vaddr : Nat
  p_memsz : Nat
  deriving Repr, DecidableEq

/-- The ELF constant `PT_LOAD`. -/
def PT_LOAD : Nat := 1

/-- Modelled from the spec: the macro `PAGE_START` is defined in `private/bionic_page.h`, outside
the source file. The spec says the minimum is rounded "down ... to the enclosing page boundary
(page size is a platform constant)". -/
def PAGE_START (T : Target) (x : Nat) : Nat := x - x % T.PAGE_SIZE

/-- Modelled from the spec: the macro `PAGE_END` is defined in `private/bionic_page.h`, outside
the source file. The spec says the maximum is rounded "up to the enclosing page boundary": the
page start of `x + (PAGE_SIZE - 1)`, the sum taken in the machine word. -/
def PAGE_END (T : Target) (x : Nat) : Nat := PAGE_START T ((x + (T.PAGE_SIZE - 1)) % T.modulus)

/-- Loop state of `phdr_table_get_load_size`. -/
structure ScanState where
  min_vaddr : Nat
  max_vaddr : Nat
  found_pt_load : Bool
  deriving Repr, DecidableEq

/-- One iteration of the loop of `phdr_table_get_load_size` (lines 61-74). -/
def scan_step (T : Target) (st : ScanState) (phdr : Phdr) : ScanState :=
  if phdr.p_type ≠ PT_LOAD then
    st
  else
    let min_vaddr := if phdr.p_vaddr < st.min_vaddr then phdr.p_vaddr else st.min_vaddr
    let max_vaddr :=
      if (phdr.p_vaddr + phdr.p_memsz) % T.modulus > st.max_vaddr then
        (phdr.p_vaddr + phdr.p_memsz) % T.modulus
      else st.max_vaddr
    { min_vaddr := min_vaddr, max_vaddr := max_vaddr, found_pt_load := true }

/-- The loop of `phdr_table_get_load_size`, run from a given state over the table entries. -/
def scan_loop (T : Target) : ScanState → List Phdr → ScanState
  | st, [] => st
  | st, phdr :: rest => scan_loop T (scan_step T st phdr) rest

/-- What `phdr_table_get_load_size` produces: the returned size and the values stored through
`out_min_vaddr` / `out_max_vaddr` (`none` when the pointer is null and nothing is stored). -/
structure LoadSize where
  ret : Nat
  out_min_vaddr : Option Nat
  out_max_vaddr : Option Nat
  deriving Repr, DecidableEq

/-- The function `phdr_table_get_load_size(phdr_table, phdr_count, out_min_vaddr,
out_max_vaddr)`. The table is the list of its `phdr_count` entries; the two flags say whether
the out pointers are non-null. The returned difference is taken in the machine word. -/
def phdr_table_get_load_size (T : Target) (phdr_table : List Phdr)
    (out_min_vaddr out_max_vaddr : Bool) : LoadSize :=
  let st := scan_loop T
    { min_vaddr := UINTPTR_MAX T, max_vaddr := 0, found_pt_load := false } phdr_table
  let min_vaddr := if !st.found_pt_load then 0 else st.min_vaddr
  let min_vaddr := PAGE_START T min_vaddr
  let max_vaddr := PAGE_END T st.max_vaddr
  { ret := (max_vaddr + T.modulus - min_vaddr % T.modulus) % T.modulus,
    out_min_vaddr := if out_min_vaddr then some min_vaddr else none,
    out_max_vaddr := if out_max_vaddr then some max_vaddr else none }

/-- The fields of `struct dl_phdr_info` the file uses; `dlpi_phdr` holds the `dlpi_phnum`
entries of the segment table. -/
structure dl_phdr_info where
  dlpi_addr : Nat
  dlpi_phdr : List Phdr
  deriving Repr, DecidableEq

/-- The function `callback(info, size, data)`: the returned `int` and the globals `data` points
to after the call. -/
def callback (T : Target) (info : dl_phdr_info) (data : libc_globals) : Int × libc_globals :=
  let addr := info.dlpi_addr
  if addr = 0 then
    (0, data)
  else
    let size := (phdr_table_get_load_size T info.dlpi_phdr false false).ret
    (1, { data with
            executable_start := addr,
            executable_end := (addr + size) % T.modulus })

/-- Modelled from the spec: `dl_iterate_phdr` is the loader's segment-enumeration facility,
outside the source file. The spec says it "supplies, for each loaded image, a base address and an
ordered sequence of segments", "via a callback that can request early termination": the callback
is applied to the images in order, and the enumeration stops at the first non-zero return, which
it returns. -/
def dl_iterate_phdr (cb : dl_phdr_info → libc_globals → Int × libc_globals) :
    List dl_phdr_info → libc_globals → Int × libc_globals
  | [], data => (0, data)
  | info :: rest, data =>
    if (cb info data).1 ≠ 0 then cb info data else dl_iterate_phdr cb rest (cb info data).2

/-- What `__libc_init_dynamic_object_size` reads from its environment: the loaded images, the
result of `access("/proc/self/stat", R_OK)`, and the result of
`__pthread_attr_getstack_main_thread` with the base and size it stores. -/
structure InitEnv where
  images : List dl_phdr_info
  access_result : Int
  getstack_result : Int
  current_base : Nat
  current_size : Nat
  deriving Repr, DecidableEq

/-- The function `__libc_init_dynamic_object_size(globals)`: the globals after the call. -/
def __libc_init_dynamic_object_size (T : Target) (env : InitEnv) (globals : libc_globals) :
    libc_globals :=
  let globals := { globals with enable_object_size_checks := true }
  let globals := (dl_iterate_phdr (callback T) env.images globals).2
  if env.access_result = -1 then
    globals
  else if env.getstack_result ≠ 0 then
    globals
  else
    { globals with
        main_thread_stack_top := (env.current_base + env.current_size) % T.modulus }

/-! ## The fortified entry points -/

/-- The constant `AT_FDCWD` of `fcntl.h`. -/
def AT_FDCWD : Int := -100

/-- The function `readlinkat(dirfd, path, buf, size)`. -/
def readlinkat (c : Ctx) (dirfd : Int) (path buf size : Nat) : Run Int := do
  let n ← __dynamic_object_size c buf
  if size > n then
    __fortify_chk_fail "readlinkat: prevented write past end of buffer"
  else
    call_unchecked c (.__unchecked_readlinkat dirfd path buf size)

/-- The function `readlink(path, buf, size)`. -/
def readlink (c : Ctx) (path buf size : Nat) : Run Int :=
  readlinkat c AT_FDCWD path buf size

/-- The function `__readlink_chk(path, buf, size, buf_size)`. -/
def __readlink_chk (c : Ctx) (path buf size buf_size : Nat) : Run Int := do
  let n ← __dynamic_object_size c buf
  if size > n then
    __fortify_chk_fail "readlink: prevented write past end of buffer"
  else
    call_unchecked c (.__unchecked___readlink_chk path buf size buf_size)

/-- The function `__readlinkat_chk(dirfd, path, buf, size, buf_size)`. -/
def __readlinkat_chk (c : Ctx) (dirfd : Int) (path buf size buf_size : Nat) : Run Int := do
  let n ← __dynamic_object_size c buf
  if size > n then
    __fortify_chk_fail "readlinkat: prevented write past end of buffer"
  else
    call_unchecked c (.__unchecked___readlinkat_chk dirfd path buf size buf_size)

/-- The function `getcwd(buf, size)`; `&&` evaluates the size query only for a non-null `buf`. -/
def getcwd (c : Ctx) (buf size : Nat) : Run Nat :=
  if buf ≠ 0 then do
    let n ← __dynamic_object_size c buf
    if size > n then
      __fortify_chk_fail "getcwd: prevented write past end of buffer"
    else
      call_unchecked_ptr c (.__unchecked_getcwd buf size)
  else
    call_unchecked_ptr c (.__unchecked_getcwd buf size)

/-- The function `__getcwd_chk(buf, len, buflen)`. -/
def __getcwd_chk (c : Ctx) (buf len buflen : Nat) : Run Nat :=
  if buf ≠ 0 then do
    let n ← __dynamic_object_size c buf
    if len > n then
      __fortify_chk_fail "getcwd: prevented write past end of buffer"
    else
      call_unchecked_ptr c (.__unchecked___getcwd_chk buf len buflen)
  else
    call_unchecked_ptr c (.__unchecked___getcwd_chk buf len buflen)

/-- The function `read(fd, buf, count)`. -/
def read (c : Ctx) (fd : Int) (buf count : Nat) : Run Int := do
  let n ← __dynamic_object_size c buf
  if count > n then
    __fortify_chk_fail "read: prevented write past end of buffer"
  else
    call_unchecked c (.__unchecked_read fd buf count)

/-- The function `__read_chk(fd, buf, count, buf_size)`. -/
def __read_chk (c : Ctx) (fd : Int) (buf count buf_size : Nat) : Run Int := do
  let n ← __dynamic_object_size c buf
  if count > n then
    __fortify_chk_fail "read: prevented write past end of buffer"
  else
    call_unchecked c (.__unchecked___read_chk fd buf count buf_size)

/-- The function `write(fd, buf, count)`. -/
def write (c : Ctx) (fd : Int) (buf count : Nat) : Run Int := do
  let n ← __dynamic_object_size c buf
  if count > n then
    __fortify_chk_fail "write: prevented read past end of buffer"
  else
    call_unchecked c (.__unchecked_write fd buf count)

/-- The function `__write_chk(fd, buf, count, buf_size)`. -/
def __write_chk (c : Ctx) (fd : Int) (buf count buf_size : Nat) : Run Int := do
  let n ← __dynamic_object_size c buf
  if count > n then
    __fortify_chk_fail "write: prevented read past end of buffer"
  else
    call_unchecked c (.__unchecked___write_chk fd buf count buf_size)

/-- The function `pread64(fd, buf, byte_count, offset)`. -/
def pread64 (c : Ctx) (fd : Int) (buf byte_count : Nat) (offset : Int) : Run Int := do
  let n ← __dynamic_object_size c buf
  if byte_count > n then
    __fortify_chk_fail "pread64: prevented write past end of buffer"
  else
    call_unchecked c (.__unchecked_pread64 fd buf byte_count offset)

/-- The function `pwrite64(fd, buf, byte_count, offset)`. -/
def pwrite64 (c : Ctx) (fd : Int) (buf byte_count : Nat) (offset : Int) : Run Int := do
  let n ← __dynamic_object_size c buf
  if byte_count > n then
    __fortify_chk_fail "pwrite64: prevented read past end of buffer"
  else
    call_unchecked c (.__unchecked_pwrite64 fd buf byte_count offset)

/-- The function `pread(fd, buf, byte_count, offset)`; widening `off_t` to `off64_t` keeps the
value. -/
def pread (c : Ctx) (fd : Int) (buf byte_count : Nat) (offset : Int) : Run Int :=
  pread64 c fd buf byte_count offset

/-- The function `pwrite(fd, buf, byte_count, offset)`; widening `off_t` to `off64_t` keeps the
value. -/
def pwrite (c : Ctx) (fd : Int) (buf byte_count : Nat) (offset : Int) : Run Int :=
  pwrite64 c fd buf byte_count offset

/-- The function `recvfrom(fd, buf, len, flags, src_addr, addr_len)`. -/
def recvfrom (c : Ctx) (fd : Int) (buf len : Nat) (flags : Int) (src_addr addr_len : Nat) :
    Run Int := do
  let n ← __dynamic_object_size c buf
  if len > n then
    __fortify_chk_fail "recvfrom: prevented write past end of buffer"
  else
    call_unchecked c (.__unchecked_recvfrom fd buf len flags src_addr addr_len)

/-- The function `__recvfrom_chk(socket, buf, len, buflen, flags, src_addr, addrlen)`. -/
def __recvfrom_chk (c : Ctx) (socket : Int) (buf len buflen : Nat) (flags : Int)
    (src_addr addrlen : Nat) : Run Int := do
  let n ← __dynamic_object_size c buf
  if len > n then
    __fortify_chk_fail "recvfrom: prevented write past end of buffer"
  else
    call_unchecked c (.__unchecked___recvfrom_chk socket buf len buflen flags src_addr addrlen)

/-- The function `sendto(fd, buf, len, flags, dest_addr, addr_len)`. -/
def sendto (c : Ctx) (fd : Int) (buf len : Nat) (flags : Int) (dest_addr addr_len : Nat) :
    Run Int := do
  let n ← __dynamic_object_size c buf
  if len > n then
    __fortify_chk_fail "sendto: prevented read past end of buffer"
  else
    call_unchecked c (.__unchecked_sendto fd buf len flags dest_addr addr_len)

/-- The function `__sendto_chk(socket, buf, len, buflen, flags, dest_addr, addrlen)`. -/
def __sendto_chk (c : Ctx) (socket : Int) (buf len buflen : Nat) (flags : Int)
    (dest_addr addrlen : Nat) : Run Int := do
  let n ← __dynamic_object_size c buf
  if len > n then
    __fortify_chk_fail "sendto: prevented read past end of buffer"
  else
    call_unchecked c (.__unchecked___sendto_chk socket buf len buflen flags dest_addr addrlen)

/-- The function `send(socket, buf, len, flags)`. -/
def send (c : Ctx) (socket : Int) (buf len : Nat) (flags : Int) : Run Int :=
  sendto c socket buf len flags 0 0

/-- The function `recv(socket, buf, len, flags)`. -/
def recv (c : Ctx) (socket : Int) (buf len : Nat) (flags : Int) : Run Int :=
  recvfrom c socket buf len flags 0 0

/-! ## Properties of runs used in the statements -/

/-- The run ends in `__fortify_chk_fail msg` and no `__unchecked_*` primitive was called. -/
def Run.aborts_with {α : Type} (r : Run α) (msg : String) : Prop :=
  r.2 = .fortify_chk_fail msg ∧ unchecked_calls r.1 = []

/-- The run called exactly one `__unchecked_*` primitive, namely `call`, and returned `v`. -/
def Run.delegates_to {α : Type} (r : Run α) (call : UncheckedCall) (v : α) : Prop :=
  r.2 = .ret v ∧ unchecked_calls r.1 = [call]

/-- Every entry point of the file, called on buffer `buf` with declared length `len`, calls its
`__unchecked_*` primitive exactly once, with the caller's arguments unchanged (the re-dispatching
entry points add the arguments the source adds: `AT_FDCWD`, a null address and length `0`), and
returns the answer of that primitive unchanged. -/
def every_entry_delegates (c : Ctx) (buf len : Nat) : Prop :=
    (∀ fd, (read c fd buf len).delegates_to (.__unchecked_read fd buf len)
      (c.unchecked_answer (.__unchecked_read fd buf len))) ∧
    (∀ fd buf_size, (__read_chk c fd buf len buf_size).delegates_to
      (.__unchecked___read_chk fd buf len buf_size)
      (c.unchecked_answer (.__unchecked___read_chk fd buf len buf_size))) ∧
    (∀ fd, (write c fd buf len).delegates_to (.__unchecked_write fd buf len)
      (c.unchecked_answer (.__unchecked_write fd buf len))) ∧
    (∀ fd buf_size, (__write_chk c fd buf len buf_size).delegates_to
      (.__unchecked___write_chk fd buf len buf_size)
      (c.unchecked_answer (.__unchecked___write_chk fd buf len buf_size))) ∧
    (∀ fd offset, (pread64 c fd buf len offset).delegates_to
      (.__unchecked_pread64 fd buf len offset)
      (c.unchecked_answer (.__unchecked_pread64 fd buf len offset))) ∧
    (∀ fd offset, (pwrite64 c fd buf len offset).delegates_to
      (.__unchecked_pwrite64 fd buf len offset)
      (c.unchecked_answer (.__unchecked_pwrite64 fd buf len offset))) ∧
    (∀ fd flags src_addr addr_len, (recvfrom c fd buf len flags src_addr addr_len).delegates_to
      (.__unchecked_recvfrom fd buf len flags src_addr addr_len)
      (c.unchecked_answer (.__unchecked_recvfrom fd buf len flags src_addr addr_len))) ∧
    (∀ socket buflen flags src_addr addrlen,
      (__recvfrom_chk c socket buf len buflen flags src_addr addrlen).delegates_to
        (.__unchecked___recvfrom_chk socket buf len buflen flags src_addr addrlen)
        (c.unchecked_answer
          (.__unchecked___recvfrom_chk socket buf len buflen flags src_addr addrlen))) ∧
    (∀ fd flags dest_addr addr_len, (sendto c fd buf len flags dest_addr addr_len).delegates_to
      (.__unchecked_sendto fd buf len flags dest_addr addr_len)
      (c.unchecked_answer (.__unchecked_sendto fd buf len flags dest_addr addr_len))) ∧
    (∀ socket buflen flags dest_addr addrlen,
      (__sendto_chk c socket buf len buflen flags dest_addr addrlen).delegates_to
        (.__unchecked___sendto_chk socket buf len buflen flags dest_addr addrlen)
        (c.unchecked_answer
          (.__unchecked___sendto_chk socket buf len buflen flags dest_addr addrlen))) ∧
    (∀ dirfd path, (readlinkat c dirfd path buf len).delegates_to
      (.__unchecked_readlinkat dirfd path buf len)
      (c.unchecked_answer (.__unchecked_readlinkat dirfd path buf len))) ∧
    (∀ dirfd path buf_size, (__readlinkat_chk c dirfd path buf len buf_size).delegates_to
      (.__unchecked___readlinkat_chk dirfd path buf len buf_size)
      (c.unchecked_answer (.__unchecked___readlinkat_chk dirfd path buf len buf_size))) ∧
    (∀ path buf_size, (__readlink_chk c path buf len buf_size).delegates_to
      (.__unchecked___readlink_chk path buf len buf_size)
      (c.unchecked_answer (.__unchecked___readlink_chk path buf len buf_size))) ∧
    ((getcwd c buf len).delegates_to (.__unchecked_getcwd buf len)
      (c.unchecked_ptr_answer (.__unchecked_getcwd buf len))) ∧
    (∀ buflen, (__getcwd_chk c buf len buflen).delegates_to
      (.__unchecked___getcwd_chk buf len buflen)
      (c.unchecked_ptr_answer (.__unchecked___getcwd_chk buf len buflen))) ∧
    (∀ fd offset, (pread c fd buf len offset).delegates_to
      (.__unchecked_pread64 fd buf len offset)
      (c.unchecked_answer (.__unchecked_pread64 fd buf len offset))) ∧
    (∀ fd offset, (pwrite c fd buf len offset).delegates_to
      (.__unchecked_pwrite64 fd buf len offset)
      (c.unchecked_answer (.__unchecked_pwrite64 fd buf len offset))) ∧
    (∀ socket flags, (send c socket buf len flags).delegates_to
      (.__unchecked_sendto socket buf len flags 0 0)
      (c.unchecked_answer (.__unchecked_sendto socket buf len flags 0 0))) ∧
    (∀ socket flags, (recv c socket buf len flags).delegates_to
      (.__unchecked_recvfrom socket buf len flags 0 0)
      (c.unchecked_answer (.__unchecked_recvfrom socket buf len flags 0 0))) ∧
    (∀ path, (readlink c path buf len).delegates_to
      (.__unchecked_readlinkat AT_FDCWD path buf len)
      (c.unchecked_answer (.__unchecked_readlinkat AT_FDCWD path buf len)))

/-- Every entry point that performs the check itself, called on buffer `buf` with declared
length `len`, ends in `__fortify_chk_fail` with its diagnostic and calls no `__unchecked_*`
primitive (`getcwd` and `__getcwd_chk` for a non-null buffer). -/
def every_checking_entry_aborts (c : Ctx) (buf len : Nat) : Prop :=
    (∀ fd, (read c fd buf len).aborts_with "read: prevented write past end of buffer") ∧
    (∀ fd buf_size, (__read_chk c fd buf len buf_size).aborts_with
      "read: prevented write past end of buffer") ∧
    (∀ fd, (write c fd buf len).aborts_with "write: prevented read past end of buffer") ∧
    (∀ fd buf_size, (__write_chk c fd buf len buf_size).aborts_with
      "write: prevented read past end of buffer") ∧
    (∀ fd offset, (pread64 c fd buf len offset).aborts_with
      "pread64: prevented write past end of buffer") ∧
    (∀ fd offset, (pwrite64 c fd buf len offset).aborts_with
      "pwrite64: prevented read past end of buffer") ∧
    (∀ fd flags src_addr addr_len, (recvfrom c fd buf len flags src_addr addr_len).aborts_with
      "recvfrom: prevented write past end of buffer") ∧
    (∀ socket buflen flags src_addr addrlen,
      (__recvfrom_chk c socket buf len buflen flags src_addr addrlen).aborts_with
        "recvfrom: prevented write past end of buffer") ∧
    (∀ fd flags dest_addr addr_len, (sendto c fd buf len flags dest_addr addr_len).aborts_with
      "sendto: prevented read past end of buffer") ∧
    (∀ socket buflen flags dest_addr addrlen,
      (__sendto_chk c socket buf len buflen flags dest_addr addrlen).aborts_with
        "sendto: prevented read past end of buffer") ∧
    (∀ dirfd path, (readlinkat c dirfd path buf len).aborts_with
      "readlinkat: prevented write past end of buffer") ∧
    (∀ dirfd path buf_size, (__readlinkat_chk c dirfd path buf len buf_size).aborts_with
      "readlinkat: prevented write past end of buffer") ∧
    (∀ path buf_size, (__readlink_chk c path buf len buf_size).aborts_with
      "readlink: prevented write past end of buffer") ∧
    (buf ≠ 0 → (getcwd c buf len).aborts_with "getcwd: prevented write past end of buffer") ∧
    (buf ≠ 0 → ∀ buflen, (__getcwd_chk c buf len buflen).aborts_with
      "getcwd: prevented write past end of buffer")

/-- The run ends in `__fortify_chk_fail`, with some diagnostic. -/
def Run.fortify_aborts {α : Type} (r : Run α) : Prop :=
  ∃ msg, r.2 = .fortify_chk_fail msg

/-- The run terminates the process (by `__libc_fatal` or `__fortify_chk_fail`): it returns no
value. -/
def Run.aborts {α : Type} (r : Run α) : Prop :=
  ∀ v, r.2 ≠ .ret v

/-- The declared length `len` exceeds the size the resolver returns for `buf`: the condition
`len > __dynamic_object_size(buf)` of the wrappers. -/
def violation (c : Ctx) (buf len : Nat) : Prop :=
  ∃ n, (__dynamic_object_size c buf).2 = .ret n ∧ n < len

/-- Two runs take the same abort decision: one ends in `__fortify_chk_fail` exactly when the
other does, and one terminates the process exactly when the other does. -/
def same_abort_decision {α β : Type} (r₁ : Run α) (r₂ : Run β) : Prop :=
  (r₁.fortify_aborts ↔ r₂.fortify_aborts) ∧ (r₁.aborts ↔ r₂.aborts)

/-- The run ends in `__fortify_chk_fail` exactly under the condition `cond`, and its diagnostic
is then `expected`. -/
def Run.diagnostic_is {α : Type} (r : Run α) (expected : String) (cond : Prop) : Prop :=
  ∀ msg, r.2 = .fortify_chk_fail msg ↔ (msg = expected ∧ cond)

/-- Every entry point of the file, called on buffer `buf` with declared length `len`, ends in
`__fortify_chk_fail` exactly when `len` exceeds the resolved size of `buf` (and, for `getcwd` and
`__getcwd_chk`, `buf` is not null), and the diagnostic is then the one listed: the name of the
function that performs the check, and the direction of the violation. -/
def every_entry_diagnostic (c : Ctx) (buf len : Nat) : Prop :=
    (∀ fd, (read c fd buf len).diagnostic_is
      "read: prevented write past end of buffer" (violation c buf len)) ∧
    (∀ fd buf_size, (__read_chk c fd buf len buf_size).diagnostic_is
      "read: prevented write past end of buffer" (violation c buf len)) ∧
    (∀ fd, (write c fd buf len).diagnostic_is
      "write: prevented read past end of buffer" (violation c buf len)) ∧
    (∀ fd buf_size, (__write_chk c fd buf len buf_size).diagnostic_is
      "write: prevented read past end of buffer" (violation c buf len)) ∧
    (∀ fd offset, (pread64 c fd buf len offset).diagnostic_is
      "pread64: prevented write past end of buffer" (violation c buf len)) ∧
    (∀ fd offset, (pwrite64 c fd buf len offset).diagnostic_is
      "pwrite64: prevented read past end of buffer" (violation c buf len)) ∧
    (∀ fd flags src_addr addr_len, (recvfrom c fd buf len flags src_addr addr_len).diagnostic_is
      "recvfrom: prevented write past end of buffer" (violation c buf len)) ∧
    (∀ socket buflen flags src_addr addrlen,
      (__recvfrom_chk c socket buf len buflen flags src_addr addrlen).diagnostic_is
        "recvfrom: prevented write past end of buffer" (violation c buf len)) ∧
    (∀ fd flags dest_addr addr_len, (sendto c fd buf len flags dest_addr addr_len).diagnostic_is
      "sendto: prevented read past end of buffer" (violation c buf len)) ∧
    (∀ socket buflen flags dest_addr addrlen,
      (__sendto_chk c socket buf len buflen flags dest_addr addrlen).diagnostic_is
        "sendto: prevented read past end of buffer" (violation c buf len)) ∧
    (∀ dirfd path, (readlinkat c dirfd path buf len).diagnostic_is
      "readlinkat: prevented write past end of buffer" (violation c buf len)) ∧
    (∀ dirfd path buf_size, (__readlinkat_chk c dirfd path buf len buf_size).diagnostic_is
      "readlinkat: prevented write past end of buffer" (violation c buf len)) ∧
    (∀ path buf_size, (__readlink_chk c path buf len buf_size).diagnostic_is
      "readlink: prevented write past end of buffer" (violation c buf len)) ∧
    ((getcwd c buf len).diagnostic_is
      "getcwd: prevented write past end of buffer" (buf ≠ 0 ∧ violation c buf len)) ∧
    (∀ buflen, (__getcwd_chk c buf len buflen).diagnostic_is
      "getcwd: prevented write past end of buffer" (buf ≠ 0 ∧ violation c buf len)) ∧
    (∀ fd offset, (pread c fd buf len offset).diagnostic_is
      "pread64: prevented write past end of buffer" (violation c buf len)) ∧
    (∀ fd offset, (pwrite c fd buf len offset).diagnostic_is
      "pwrite64: prevented read past end of buffer" (violation c buf len)) ∧
    (∀ socket flags, (send c socket buf len flags).diagnostic_is
      "sendto: prevented read past end of buffer" (violation c buf len)) ∧
    (∀ socket flags, (recv c socket buf len flags).diagnostic_is
      "recvfrom: prevented write past end of buffer" (violation c buf len)) ∧
    (∀ path, (readlink c path buf len).diagnostic_is
      "readlinkat: prevented write past end of buffer" (violation c buf len))

/-! ## Concrete contexts used in examples -/

/-- A 64-bit target with 4 KiB pages. -/
def lp64 : Target := { ptr_bits := 64, PAGE_SIZE := 0x1000 }

/-- A 32-bit target with 4 KiB pages. -/
def ilp32 : Target := { ptr_bits := 32, PAGE_SIZE := 0x1000 }

/-- The main thread (`tid = getpid() = 1`) with recorded stack top `0x7000`, resolver frame at
`0x6F00`, executable image at `[0x10000, 0x12000)`, and an allocator that knows no pointer. -/
def ctx_main : Ctx :=
  { T := lp64,
    globals := { enable_object_size_checks := true, executable_start := 0x10000,
                 executable_end := 0x12000, main_thread_stack_top := 0x7000 },
    thread := { tid := 1, in_malloc := false, attr := { stack_base := 0, stack_size := 0 } },
    pid := 1,
    frame := 0x6F00,
    malloc_answer := fun _ => __BIONIC_FORTIFY_UNKNOWN_SIZE lp64,
    unchecked_answer := fun _ => -1,
    unchecked_ptr_answer := fun _ => 0 }

/-- A thread other than the main one (`tid = 2`, `getpid() = 1`) with stack `[0x1000, 0x7000)`,
resolver frame at `0x6F00`, same image and allocator as `ctx_main`. -/
def ctx_thread : Ctx :=
  { ctx_main with
    thread := { tid := 2, in_malloc := false,
                attr := { stack_base := 0x1000, stack_size := 0x6000 } } }

/-- The context `ctx_thread` with the reentrancy flag `in_malloc` set. -/
def ctx_in_malloc : Ctx :=
  { ctx_thread with
    thread := { tid := 2, in_malloc := true,
                attr := { stack_base := 0x1000, stack_size := 0x6000 } } }

/-- The single loadable segment of the scenario: `p_vaddr = 0x1000`, `p_memsz = 0x2050`. -/
def scenario_segment : Phdr := { p_type := PT_LOAD, p_vaddr := 0x1000, p_memsz := 0x2050 }

/-- An image loaded at base `0x10000` whose only loadable segment starts at the non-zero
page-aligned virtual address `0x1000`. -/
def scenario_image : dl_phdr_info := { dlpi_addr := 0x10000, dlpi_phdr := [scenario_segment] }

/-- A segment table with a non-loadable entry and two loadable segments, `[0x3000, 0x3800)`
and `[0x1000, 0x3050)`. -/
def mixed_table : List Phdr :=
  [{ p_type := 6, p_vaddr := 0x40, p_memsz := 0x1f8 },
   { p_type := PT_LOAD, p_vaddr := 0x3000, p_memsz := 0x800 },
   scenario_segment]

/-- The context `ctx_main` with an allocator that reports 32 usable bytes for every pointer. -/
def ctx_heap32 : Ctx := { ctx_main with malloc_answer := fun _ => 32 }

/-- The context `ctx_main` after a failed stack lookup: no main-thread stack top is recorded. -/
def ctx_no_stack_top : Ctx :=
  { ctx_main with
    globals := { enable_object_size_checks := true, executable_start := 0x10000,
                 executable_end := 0x12000, main_thread_stack_top := 0 } }

/-- An image with a null base (a non-relocated image). -/
def null_base_image : dl_phdr_info :=
  { dlpi_addr := 0, dlpi_phdr := [{ p_type := PT_LOAD, p_vaddr := 0x400000, p_memsz := 0x1000 }] }

/-- An image loaded at base `0x7f0000` after the main one. -/
def later_image : dl_phdr_info :=
  { dlpi_addr := 0x7f0000, dlpi_phdr := [{ p_type := PT_LOAD, p_vaddr := 0, p_memsz := 0x5000 }] }

/-- The globals before initialisation: checks disabled, all addresses null. -/
def globals_initial : libc_globals :=
  { enable_object_size_checks := false, executable_start := 0, executable_end := 0,
    main_thread_stack_top := 0 }

/-- The main thread of a process whose globals are the ones `callback` records for
`scenario_image`, starting from enabled checks and null addresses; no stack top is recorded. The
loader maps the segment of `scenario_image` at `[0x11000, 0x13050)`, base plus `p_vaddr`. -/
def ctx_scanned : Ctx :=
  { ctx_main with
    globals :=
      (callback lp64 scenario_image
        { globals_initial with enable_object_size_checks := true }).2 }

/-! ## Shared lemmas -/

/-- Sequencing after a run that returned `n` continues with `n` and joins the traces. -/
theorem Run.bind_ret {α β : Type} (es : List Event) (n : α) (f : α → Run β) :
    @Bind.bind Run _ α β (es, Outcome.ret n) f = (es ++ (f n).1, (f n).2) := rfl

/-- With checks enabled and outside the allocator the fast exit of the resolver is not taken. -/
theorem guard_open (c : Ctx) (henabled : c.globals.enable_object_size_checks = true)
    (hmalloc : c.thread.in_malloc = false) :
    (!c.globals.enable_object_size_checks || c.thread.in_malloc) = false := by
  simp [henabled, hmalloc]

/-- The second component of `stack_bounds` is the recorded main-thread stack top on the main
thread and `stack_base + stack_size` (in the machine word) on any other thread. -/
theorem stack_top_eq (c : Ctx) :
    (stack_bounds c).2 =
      if c.thread.tid = c.pid then c.globals.main_thread_stack_top
      else (c.thread.attr.stack_base + c.thread.attr.stack_size) % c.T.modulus := by
  unfold stack_bounds
  by_cases hmain : c.thread.tid = c.pid
  · by_cases htop : c.globals.main_thread_stack_top = 0
    · simp [hmain, htop]
    · simp [hmain, htop]
  · simp [hmain]

/-- The resolver never calls an `__unchecked_*` primitive. -/
theorem dynamic_object_size_no_unchecked (c : Ctx) (ptr : Nat) :
    unchecked_calls (__dynamic_object_size c ptr).1 = [] := by
  unfold __dynamic_object_size
  split
  · rfl
  · simp only []
    split
    · split <;> rfl
    · split <;> rfl

/-- The `__unchecked_*` calls of a joined trace are those of its parts, in order. -/
theorem unchecked_calls_append (xs ys : List Event) :
    unchecked_calls (xs ++ ys) = unchecked_calls xs ++ unchecked_calls ys := by
  induction xs with
  | nil => rfl
  | cons e es ih =>
    cases e with
    | malloc_object_size q => simpa [unchecked_calls] using ih
    | unchecked q => simpa [unchecked_calls] using ih

/-- A run whose outcome is `ret n` is the pair of its trace and `ret n`. -/
theorem run_eq_of_outcome {α : Type} (r : Run α) (n : α) (h : r.2 = .ret n) :
    r = (r.1, .ret n) := by
  rw [← h]

/-- The guard pattern of every wrapper, violated: when the resolver returns `n` and the declared
length exceeds `n`, the run ends in `__fortify_chk_fail msg` before the continuation. -/
theorem guarded_aborts {α : Type} (c : Ctx) (buf n len : Nat) (msg : String) (k : Run α)
    (hn : (__dynamic_object_size c buf).2 = .ret n) (hgt : n < len) :
    Run.aborts_with
      (__dynamic_object_size c buf >>= fun m => if len > m then __fortify_chk_fail msg else k)
      msg := by
  have hno := dynamic_object_size_no_unchecked c buf
  rw [run_eq_of_outcome _ n hn, Run.bind_ret]
  simp [Run.aborts_with, hgt, __fortify_chk_fail, hno]

/-- The guard pattern of every `ssize_t` wrapper, satisfied: when the resolver returns `n` and the
declared length is at most `n`, the primitive is called once and its answer returned. -/
theorem guarded_delegates (c : Ctx) (buf n len : Nat) (msg : String) (call : UncheckedCall)
    (hn : (__dynamic_object_size c buf).2 = .ret n) (hle : len ≤ n) :
    Run.delegates_to
      (__dynamic_object_size c buf >>= fun m =>
        if len > m then __fortify_chk_fail msg else call_unchecked c call)
      call (c.unchecked_answer call) := by
  have hno := dynamic_object_size_no_unchecked c buf
  have hng : ¬ n < len := Nat.not_lt.mpr hle
  rw [run_eq_of_outcome _ n hn, Run.bind_ret]
  simp [Run.delegates_to, hng, call_unchecked, unchecked_calls_append, hno, unchecked_calls]

/-- The guard pattern of the `char*` wrappers, satisfied: when the resolver returns `n` and the
declared length is at most `n`, the primitive is called once and its answer returned. -/
theorem guarded_delegates_ptr (c : Ctx) (buf n len : Nat) (msg : String) (call : UncheckedCall)
    (hn : (__dynamic_object_size c buf).2 = .ret n) (hle : len ≤ n) :
    Run.delegates_to
      (__dynamic_object_size c buf >>= fun m =>
        if len > m then __fortify_chk_fail msg else call_unchecked_ptr c call)
      call (c.unchecked_ptr_answer call) := by
  have hno := dynamic_object_size_no_unchecked c buf
  have hng : ¬ n < len := Nat.not_lt.mpr hle
  rw [run_eq_of_outcome _ n hn, Run.bind_ret]
  simp [Run.delegates_to, hng, call_unchecked_ptr, unchecked_calls_append, hno, unchecked_calls]

/-- The function `getcwd` with a null buffer, or with a length within the resolved size, calls
`__unchecked_getcwd` once and returns its answer. -/
theorem getcwd_delegates (c : Ctx) (buf n len : Nat)
    (h : buf = 0 ∨ ((__dynamic_object_size c buf).2 = .ret n ∧ len ≤ n)) :
    Run.delegates_to (getcwd c buf len) (.__unchecked_getcwd buf len)
      (c.unchecked_ptr_answer (.__unchecked_getcwd buf len)) := by
  unfold getcwd
  by_cases hbuf : buf = 0
  · simp [hbuf, Run.delegates_to, call_unchecked_ptr, unchecked_calls]
  · rcases h with h | ⟨hn, hle⟩
    · exact absurd h hbuf
    · rw [if_pos hbuf]
      exact guarded_delegates_ptr c buf n len _ _ hn hle

/-- The function `__getcwd_chk` with a null buffer, or with a length within the resolved size,
calls `__unchecked___getcwd_chk` once and returns its answer. -/
theorem getcwd_chk_delegates (c : Ctx) (buf n len buflen : Nat)
    (h : buf = 0 ∨ ((__dynamic_object_size c buf).2 = .ret n ∧ len ≤ n)) :
    Run.delegates_to (__getcwd_chk c buf len buflen) (.__unchecked___getcwd_chk buf len buflen)
      (c.unchecked_ptr_answer (.__unchecked___getcwd_chk buf len buflen)) := by
  unfold __getcwd_chk
  by_cases hbuf : buf = 0
  · simp [hbuf, Run.delegates_to, call_unchecked_ptr, unchecked_calls]
  · rcases h with h | ⟨hn, hle⟩
    · exact absurd h hbuf
    · rw [if_pos hbuf]
      exact guarded_delegates_ptr c buf n len _ _ hn hle

/-- Every entry point called with a length within the resolved size `n` calls its
`__unchecked_*` primitive once, with the caller's arguments, and returns its answer. -/
theorem all_delegate (c : Ctx) (buf n len : Nat)
    (hn : (__dynamic_object_size c buf).2 = .ret n) (hle : len ≤ n) :
    every_entry_delegates c buf len := by
  refine ⟨?_, ?_, ?_, ?_, ?_, ?_, ?_, ?_, ?_, ?_, ?_, ?_, ?_, ?_, ?_, ?_, ?_, ?_, ?_, ?_⟩
  · intro fd; exact guarded_delegates c buf n len _ _ hn hle
  · intro fd buf_size; exact guarded_delegates c buf n len _ _ hn hle
  · intro fd; exact guarded_delegates c buf n len _ _ hn hle
  · intro fd buf_size; exact guarded_delegates c buf n len _ _ hn hle
  · intro fd offset; exact guarded_delegates c buf n len _ _ hn hle
  · intro fd offset; exact guarded_delegates c buf n len _ _ hn hle
  · intro fd flags src_addr addr_len; exact guarded_delegates c buf n len _ _ hn hle
  · intro socket buflen flags src_addr addrlen; exact guarded_delegates c buf n len _ _ hn hle
  · intro fd flags dest_addr addr_len; exact guarded_delegates c buf n len _ _ hn hle
  · intro socket buflen flags dest_addr addrlen; exact guarded_delegates c buf n len _ _ hn hle
  · intro dirfd path; exact guarded_delegates c buf n len _ _ hn hle
  · intro dirfd path buf_size; exact guarded_delegates c buf n len _ _ hn hle
  · intro path buf_size; exact guarded_delegates c buf n len _ _ hn hle
  · exact getcwd_delegates c buf n len (Or.inr ⟨hn, hle⟩)
  · intro buflen; exact getcwd_chk_delegates c buf n len buflen (Or.inr ⟨hn, hle⟩)
  · intro fd offset; exact guarded_delegates c buf n len _ _ hn hle
  · intro fd offset; exact guarded_delegates c buf n len _ _ hn hle
  · intro socket flags; exact guarded_delegates c buf n len _ _ hn hle
  · intro socket flags; exact guarded_delegates c buf n len _ _ hn hle
  · intro path; exact guarded_delegates c buf n len _ _ hn hle

/-- Every checking entry point called with a length above the resolved size `n` ends in
`__fortify_chk_fail` without calling its primitive. -/
theorem all_abort (c : Ctx) (buf n len : Nat)
    (hn : (__dynamic_object_size c buf).2 = .ret n) (hgt : n < len) :
    every_checking_entry_aborts c buf len := by
  refine ⟨?_, ?_, ?_, ?_, ?_, ?_, ?_, ?_, ?_, ?_, ?_, ?_, ?_, ?_, ?_⟩
  · intro fd; exact guarded_aborts c buf n len _ _ hn hgt
  · intro fd buf_size; exact guarded_aborts c buf n len _ _ hn hgt
  · intro fd; exact guarded_aborts c buf n len _ _ hn hgt
  · intro fd buf_size; exact guarded_aborts c buf n len _ _ hn hgt
  · intro fd offset; exact guarded_aborts c buf n len _ _ hn hgt
  · intro fd offset; exact guarded_aborts c buf n len _ _ hn hgt
  · intro fd flags src_addr addr_len; exact guarded_aborts c buf n len _ _ hn hgt
  · intro socket buflen flags src_addr addrlen; exact guarded_aborts c buf n len _ _ hn hgt
  · intro fd flags dest_addr addr_len; exact guarded_aborts c buf n len _ _ hn hgt
  · intro socket buflen flags dest_addr addrlen; exact guarded_aborts c buf n len _ _ hn hgt
  · intro dirfd path; exact guarded_aborts c buf n len _ _ hn hgt
  · intro dirfd path buf_size; exact guarded_aborts c buf n len _ _ hn hgt
  · intro path buf_size; exact guarded_aborts c buf n len _ _ hn hgt
  · intro hbuf
    unfold getcwd
    rw [if_pos hbuf]
    exact guarded_aborts c buf n len _ _ hn hgt
  · intro hbuf buflen
    unfold __getcwd_chk
    rw [if_pos hbuf]
    exact guarded_aborts c buf n len _ _ hn hgt

/-- Sequencing after a run that ended in `__libc_fatal` keeps that outcome. -/
theorem Run.bind_libc_fatal {α β : Type} (es : List Event) (p b s : Nat) (f : α → Run β) :
    @Bind.bind Run _ α β (es, Outcome.libc_fatal p b s) f = (es, .libc_fatal p b s) := rfl

/-- Sequencing after a run that ended in `__fortify_chk_fail` keeps that outcome. -/
theorem Run.bind_fortify {α β : Type} (es : List Event) (m : String) (f : α → Run β) :
    @Bind.bind Run _ α β (es, Outcome.fortify_chk_fail m) f = (es, .fortify_chk_fail m) := rfl

/-- The resolver itself never ends in `__fortify_chk_fail`. -/
theorem dynamic_object_size_not_fortify (c : Ctx) (ptr : Nat) (msg : String) :
    (__dynamic_object_size c ptr).2 ≠ .fortify_chk_fail msg := by
  unfold __dynamic_object_size
  split
  · simp [pure]
  · simp only []
    split
    · split <;> simp [pure, __libc_fatal]
    · split <;> simp [pure, __malloc_object_size]

/-- The guard pattern of every wrapper ends in `__fortify_chk_fail` exactly when the declared
length exceeds the resolved size, and then with the diagnostic of the wrapper. -/
theorem guarded_diagnostic {α : Type} (c : Ctx) (buf len : Nat) (msg₀ : String) (k : Run α)
    (hk : ∃ v, k.2 = .ret v) :
    Run.diagnostic_is
      (__dynamic_object_size c buf >>= fun m => if len > m then __fortify_chk_fail msg₀ else k)
      msg₀ (violation c buf len) := by
  intro msg
  have hnf := dynamic_object_size_not_fortify c buf
  unfold violation
  obtain ⟨v, hv⟩ := hk
  generalize __dynamic_object_size c buf = r at hnf ⊢
  obtain ⟨es, o⟩ := r
  cases o with
  | ret n =>
    rw [Run.bind_ret]
    by_cases hlt : n < len
    · simp [hlt, __fortify_chk_fail, eq_comm]
    · simp [hlt, hv]
  | libc_fatal p b s => simp [Run.bind_libc_fatal]
  | fortify_chk_fail m => exact absurd rfl (hnf m)

/-- The guard pattern terminates the process exactly when the declared length exceeds the
resolved size or the resolver itself terminates it. -/
theorem guarded_aborts_iff {α : Type} (c : Ctx) (buf len : Nat) (msg₀ : String) (k : Run α)
    (hk : ∃ v, k.2 = .ret v) :
    Run.aborts
      (__dynamic_object_size c buf >>= fun m => if len > m then __fortify_chk_fail msg₀ else k)
      ↔ (violation c buf len ∨ Run.aborts (__dynamic_object_size c buf)) := by
  unfold violation Run.aborts
  obtain ⟨v, hv⟩ := hk
  generalize __dynamic_object_size c buf = r
  obtain ⟨es, o⟩ := r
  cases o with
  | ret n =>
    rw [Run.bind_ret]
    by_cases hlt : n < len
    · simp [hlt, __fortify_chk_fail]
    · simp [hlt, hv]
  | libc_fatal p b s => simp [Run.bind_libc_fatal]
  | fortify_chk_fail m => simp [Run.bind_fortify]

/-- A run with a known diagnostic condition ends in `__fortify_chk_fail` exactly under it. -/
theorem fortify_aborts_iff_of_diagnostic {α : Type} (r : Run α) (expected : String)
    (cond : Prop) (h : r.diagnostic_is expected cond) : r.fortify_aborts ↔ cond := by
  constructor
  · rintro ⟨msg, hmsg⟩
    exact ((h msg).mp hmsg).2
  · intro hc
    exact ⟨expected, (h expected).mpr ⟨rfl, hc⟩⟩

/-- Two instances of the guard pattern on the same buffer and length take the same abort
decision, whatever their diagnostics and primitives. -/
theorem guarded_same_decision {α β : Type} (c : Ctx) (buf len : Nat) (m₁ m₂ : String)
    (k₁ : Run α) (k₂ : Run β) (h₁ : ∃ v, k₁.2 = .ret v) (h₂ : ∃ v, k₂.2 = .ret v) :
    same_abort_decision
      (__dynamic_object_size c buf >>= fun m => if len > m then __fortify_chk_fail m₁ else k₁)
      (__dynamic_object_size c buf >>= fun m => if len > m then __fortify_chk_fail m₂ else k₂) := by
  constructor
  · rw [fortify_aborts_iff_of_diagnostic _ _ _ (guarded_diagnostic c buf len m₁ k₁ h₁),
      fortify_aborts_iff_of_diagnostic _ _ _ (guarded_diagnostic c buf len m₂ k₂ h₂)]
  · rw [guarded_aborts_iff c buf len m₁ k₁ h₁, guarded_aborts_iff c buf len m₂ k₂ h₂]

/-- A call of an `ssize_t` primitive returns. -/
theorem call_unchecked_returns (c : Ctx) (call : UncheckedCall) :
    ∃ v, (call_unchecked c call).2 = .ret v := ⟨_, rfl⟩

/-- A call of a `char*` primitive returns. -/
theorem call_unchecked_ptr_returns (c : Ctx) (call : UncheckedCall) :
    ∃ v, (call_unchecked_ptr c call).2 = .ret v := ⟨_, rfl⟩

/-- The function `getcwd` ends in `__fortify_chk_fail` exactly for a non-null buffer whose
resolved size the length exceeds. -/
theorem getcwd_diagnostic (c : Ctx) (buf len : Nat) :
    (getcwd c buf len).diagnostic_is "getcwd: prevented write past end of buffer"
      (buf ≠ 0 ∧ violation c buf len) := by
  intro msg
  unfold getcwd
  by_cases hbuf : buf = 0
  · simp [hbuf, call_unchecked_ptr]
  · rw [if_pos hbuf]
    rw [guarded_diagnostic c buf len _ _ (call_unchecked_ptr_returns c _) msg]
    simp [hbuf]

/-- The function `__getcwd_chk` ends in `__fortify_chk_fail` exactly for a non-null buffer whose
resolved size the length exceeds. -/
theorem getcwd_chk_diagnostic (c : Ctx) (buf len buflen : Nat) :
    (__getcwd_chk c buf len buflen).diagnostic_is "getcwd: prevented write past end of buffer"
      (buf ≠ 0 ∧ violation c buf len) := by
  intro msg
  unfold __getcwd_chk
  by_cases hbuf : buf = 0
  · simp [hbuf, call_unchecked_ptr]
  · rw [if_pos hbuf]
    rw [guarded_diagnostic c buf len _ _ (call_unchecked_ptr_returns c _) msg]
    simp [hbuf]

/-- The functions `__getcwd_chk` and `getcwd` take the same abort decision. -/
theorem getcwd_same_decision (c : Ctx) (buf len buflen : Nat) :
    same_abort_decision (__getcwd_chk c buf len buflen) (getcwd c buf len) := by
  unfold __getcwd_chk getcwd
  by_cases hbuf : buf = 0
  · simp [hbuf, same_abort_decision, Run.fortify_aborts, Run.aborts, call_unchecked_ptr]
  · rw [if_pos hbuf, if_pos hbuf]
    exact guarded_same_decision c buf len _ _ _ _ (call_unchecked_ptr_returns c _)
      (call_unchecked_ptr_returns c _)

/-- The abort condition and diagnostic of every entry point. -/
theorem all_diagnostics (c : Ctx) (buf len : Nat) : every_entry_diagnostic c buf len := by
  refine ⟨?_, ?_, ?_, ?_, ?_, ?_, ?_, ?_, ?_, ?_, ?_, ?_, ?_, ?_, ?_, ?_, ?_, ?_, ?_, ?_⟩
  · intro fd; exact guarded_diagnostic c buf len _ _ (call_unchecked_returns c _)
  · intro fd buf_size; exact guarded_diagnostic c buf len _ _ (call_unchecked_returns c _)
  · intro fd; exact guarded_diagnostic c buf len _ _ (call_unchecked_returns c _)
  · intro fd buf_size; exact guarded_diagnostic c buf len _ _ (call_unchecked_returns c _)
  · intro fd offset; exact guarded_diagnostic c buf len _ _ (call_unchecked_returns c _)
  · intro fd offset; exact guarded_diagnostic c buf len _ _ (call_unchecked_returns c _)
  · intro fd flags src_addr addr_len
    exact guarded_diagnostic c buf len _ _ (call_unchecked_returns c _)
  · intro socket buflen flags src_addr addrlen
    exact guarded_diagnostic c buf len _ _ (call_unchecked_returns c _)
  · intro fd flags dest_addr addr_len
    exact guarded_diagnostic c buf len _ _ (call_unchecked_returns c _)
  · intro socket buflen flags dest_addr addrlen
    exact guarded_diagnostic c buf len _ _ (call_unchecked_returns c _)
  · intro dirfd path; exact guarded_diagnostic c buf len _ _ (call_unchecked_returns c _)
  · intro dirfd path buf_size
    exact guarded_diagnostic c buf len _ _ (call_unchecked_returns c _)
  · intro path buf_size; exact guarded_diagnostic c buf len _ _ (call_unchecked_returns c _)
  · exact getcwd_diagnostic c buf len
  · intro buflen; exact getcwd_chk_diagnostic c buf len buflen
  · intro fd offset; exact guarded_diagnostic c buf len _ _ (call_unchecked_returns c _)
  · intro fd offset; exact guarded_diagnostic c buf len _ _ (call_unchecked_returns c _)
  · intro socket flags; exact guarded_diagnostic c buf len _ _ (call_unchecked_returns c _)
  · intro socket flags; exact guarded_diagnostic c buf len _ _ (call_unchecked_returns c _)
  · intro path; exact guarded_diagnostic c buf len _ _ (call_unchecked_returns c _)

/-- The callback leaves `enable_object_size_checks` and `main_thread_stack_top` unchanged. -/
theorem callback_frame (T : Target) (info : dl_phdr_info) (data : libc_globals) :
    (callback T info data).2.enable_object_size_checks = data.enable_object_size_checks ∧
    (callback T info data).2.main_thread_stack_top = data.main_thread_stack_top := by
  unfold callback
  by_cases h : info.dlpi_addr = 0
  · simp [h]
  · simp [h]

/-- Enumerating any images with the callback leaves `enable_object_size_checks` and
`main_thread_stack_top` unchanged. -/
theorem dl_iterate_callback_frame (T : Target) (images : List dl_phdr_info)
    (data : libc_globals) :
    (dl_iterate_phdr (callback T) images data).2.enable_object_size_checks
      = data.enable_object_size_checks ∧
    (dl_iterate_phdr (callback T) images data).2.main_thread_stack_top
      = data.main_thread_stack_top := by
  induction images generalizing data with
  | nil => exact ⟨rfl, rfl⟩
  | cons info rest ih =>
    unfold dl_iterate_phdr
    by_cases h : (callback T info data).1 ≠ 0
    · rw [if_pos h]
      exact callback_frame T info data
    · rw [if_neg h]
      have h1 := ih (callback T info data).2
      have h2 := callback_frame T info data
      exact ⟨h1.1.trans h2.1, h1.2.trans h2.2⟩

/-- The callback on an image with a null base returns 0 and changes nothing. -/
theorem callback_null (T : Target) (info : dl_phdr_info) (data : libc_globals)
    (h : info.dlpi_addr = 0) : callback T info data = (0, data) := by
  simp [callback, h]

/-- The callback on an image with a non-null base returns 1. -/
theorem callback_nonnull (T : Target) (info : dl_phdr_info) (data : libc_globals)
    (h : info.dlpi_addr ≠ 0) : (callback T info data).1 = 1 := by
  simp [callback, h]

/-- Enumeration over images that all have a null base returns 0 and changes nothing. -/
theorem dl_iterate_all_null (T : Target) (images : List dl_phdr_info) (data : libc_globals)
    (h : ∀ i ∈ images, i.dlpi_addr = 0) :
    dl_iterate_phdr (callback T) images data = (0, data) := by
  induction images with
  | nil => rfl
  | cons info rest ih =>
    have h0 : info.dlpi_addr = 0 := h info (List.mem_cons_self _ _)
    unfold dl_iterate_phdr
    rw [callback_null T info data h0]
    simpa using ih (fun i hi => h i (List.mem_cons_of_mem _ hi))

/-- Enumeration stops at the first image with a non-null base: the result is that of the
callback on this image, whatever images follow. -/
theorem dl_iterate_first_nonnull (T : Target) (pre : List dl_phdr_info) (info : dl_phdr_info)
    (rest : List dl_phdr_info) (data : libc_globals)
    (hpre : ∀ i ∈ pre, i.dlpi_addr = 0) (hinfo : info.dlpi_addr ≠ 0) :
    dl_iterate_phdr (callback T) (pre ++ info :: rest) data = callback T info data := by
  induction pre with
  | nil =>
    have h1 : (callback T info data).1 ≠ 0 := by
      rw [callback_nonnull T info data hinfo]; decide
    simp only [List.nil_append]
    unfold dl_iterate_phdr
    rw [if_pos h1]
  | cons j pre ih =>
    have h0 : j.dlpi_addr = 0 := hpre j (List.mem_cons_self _ _)
    simp only [List.cons_append]
    unfold dl_iterate_phdr
    rw [callback_null T j data h0]
    simpa using ih (fun i hi => hpre i (List.mem_cons_of_mem _ hi))

/-- Rounding down to a page: a page multiple, at most `x`, less than a page below `x`. -/
theorem PAGE_START_round (T : Target) (x : Nat) (hpage : 0 < T.PAGE_SIZE) :
    T.PAGE_SIZE ∣ PAGE_START T x ∧ PAGE_START T x ≤ x ∧ x < PAGE_START T x + T.PAGE_SIZE := by
  unfold PAGE_START
  have h1 := Nat.mod_lt x hpage
  have h2 := Nat.mod_le x T.PAGE_SIZE
  exact ⟨Nat.dvd_sub_mod x, by omega, by omega⟩

/-- Rounding up to a page, when `x + (PAGE_SIZE - 1)` fits the machine word: a page multiple, at
least `x`, less than a page above `x`. -/
theorem PAGE_END_round (T : Target) (x : Nat) (hpage : 0 < T.PAGE_SIZE)
    (hfit : x + (T.PAGE_SIZE - 1) < T.modulus) :
    T.PAGE_SIZE ∣ PAGE_END T x ∧ x ≤ PAGE_END T x ∧ PAGE_END T x < x + T.PAGE_SIZE := by
  unfold PAGE_END
  rw [Nat.mod_eq_of_lt hfit]
  have h := PAGE_START_round T (x + (T.PAGE_SIZE - 1)) hpage
  exact ⟨h.1, by omega, by omega⟩

/-- Rounding up address `0` gives `0`. -/
theorem PAGE_END_zero (T : Target) : PAGE_END T 0 = 0 := by
  unfold PAGE_END PAGE_START
  by_cases hpage : 0 < T.PAGE_SIZE
  · have h1 : (0 + (T.PAGE_SIZE - 1)) % T.modulus ≤ T.PAGE_SIZE - 1 := by
      by_cases hm : T.modulus = 0
      · simp [hm]
      · exact Nat.le_trans (Nat.mod_le _ _) (by omega)
    have h2 : (0 + (T.PAGE_SIZE - 1)) % T.modulus < T.PAGE_SIZE := by omega
    rw [Nat.mod_eq_of_lt h2]
    omega
  · have h0 : T.PAGE_SIZE = 0 := by omega
    simp [h0]

/-- The scan loop leaves its state unchanged on a table without loadable segments. -/
theorem scan_loop_no_load (T : Target) (st : ScanState) (tbl : List Phdr)
    (h : ∀ seg ∈ tbl, seg.p_type ≠ PT_LOAD) : scan_loop T st tbl = st := by
  induction tbl generalizing st with
  | nil => rfl
  | cons seg rest ih =>
    have h0 : seg.p_type ≠ PT_LOAD := h seg (List.mem_cons_self _ _)
    unfold scan_loop
    have hs : scan_step T st seg = st := by simp [scan_step, h0]
    rw [hs]
    exact ih st (fun s hs => h s (List.mem_cons_of_mem _ hs))

/-- The scan loop ignores the segments that are not loadable. -/
theorem scan_loop_filter (T : Target) (st : ScanState) (tbl : List Phdr) :
    scan_loop T st (tbl.filter (fun seg => decide (seg.p_type = PT_LOAD)))
      = scan_loop T st tbl := by
  induction tbl generalizing st with
  | nil => rfl
  | cons seg rest ih =>
    by_cases h0 : seg.p_type = PT_LOAD
    · simp only [List.filter_cons, h0, decide_True, if_true]
      unfold scan_loop
      exact ih _
    · have hs : scan_step T st seg = st := by simp [scan_step, h0]
      simp only [List.filter_cons, h0, decide_False, Bool.false_eq_true, if_false]
      rw [ih st]
      conv_rhs => unfold scan_loop
      rw [hs]

/-- What the scan loop computes: the flag records whether a loadable segment was seen; the
minimum is a lower bound of the start and of every loadable `p_vaddr`, and is one of them; the
maximum is an upper bound of the start and of every loadable end, and is one of them. -/
theorem scan_loop_bounds (T : Target) (st : ScanState) (tbl : List Phdr) :
    ((scan_loop T st tbl).found_pt_load = true ↔
      (st.found_pt_load = true ∨ ∃ seg ∈ tbl, seg.p_type = PT_LOAD)) ∧
    ((scan_loop T st tbl).min_vaddr ≤ st.min_vaddr ∧
      ∀ seg ∈ tbl, seg.p_type = PT_LOAD → (scan_loop T st tbl).min_vaddr ≤ seg.p_vaddr) ∧
    ((scan_loop T st tbl).min_vaddr = st.min_vaddr ∨
      ∃ seg ∈ tbl, seg.p_type = PT_LOAD ∧ (scan_loop T st tbl).min_vaddr = seg.p_vaddr) ∧
    (st.max_vaddr ≤ (scan_loop T st tbl).max_vaddr ∧
      ∀ seg ∈ tbl, seg.p_type = PT_LOAD →
        (seg.p_vaddr + seg.p_memsz) % T.modulus ≤ (scan_loop T st tbl).max_vaddr) ∧
    ((scan_loop T st tbl).max_vaddr = st.max_vaddr ∨
      ∃ seg ∈ tbl, seg.p_type = PT_LOAD ∧
        (scan_loop T st tbl).max_vaddr = (seg.p_vaddr + seg.p_memsz) % T.modulus) := by
  induction tbl generalizing st with
  | nil => simp [scan_loop]
  | cons seg rest ih =>
    unfold scan_loop
    obtain ⟨ihf, ⟨ihmin1, ihmin2⟩, ihmin3, ⟨ihmax1, ihmax2⟩, ihmax3⟩ := ih (scan_step T st seg)
    by_cases h0 : seg.p_type = PT_LOAD
    · have hf : (scan_step T st seg).found_pt_load = true := by simp [scan_step, h0]
      have hmin : (scan_step T st seg).min_vaddr
          = if seg.p_vaddr < st.min_vaddr then seg.p_vaddr else st.min_vaddr := by
        simp [scan_step, h0]
      have hmax : (scan_step T st seg).max_vaddr
          = if (seg.p_vaddr + seg.p_memsz) % T.modulus > st.max_vaddr then
              (seg.p_vaddr + seg.p_memsz) % T.modulus else st.max_vaddr := by
        simp [scan_step, h0]
      have hmin_le : (scan_step T st seg).min_vaddr ≤ st.min_vaddr ∧
          (scan_step T st seg).min_vaddr ≤ seg.p_vaddr := by
        rw [hmin]; split <;> omega
      have hmin_eq : (scan_step T st seg).min_vaddr = st.min_vaddr ∨
          (scan_step T st seg).min_vaddr = seg.p_vaddr := by
        rw [hmin]; split
        · exact Or.inr rfl
        · exact Or.inl rfl
      have hmax_le : st.max_vaddr ≤ (scan_step T st seg).max_vaddr ∧
          (seg.p_vaddr + seg.p_memsz) % T.modulus ≤ (scan_step T st seg).max_vaddr := by
        rw [hmax]; split <;> omega
      have hmax_eq : (scan_step T st seg).max_vaddr = st.max_vaddr ∨
          (scan_step T st seg).max_vaddr = (seg.p_vaddr + seg.p_memsz) % T.modulus := by
        rw [hmax]; split
        · exact Or.inr rfl
        · exact Or.inl rfl
      refine ⟨?_, ⟨?_, ?_⟩, ?_, ⟨?_, ?_⟩, ?_⟩
      · constructor
        · intro _
          exact Or.inr ⟨seg, List.mem_cons_self _ _, h0⟩
        · intro _
          exact ihf.mpr (Or.inl hf)
      · exact Nat.le_trans ihmin1 hmin_le.1
      · intro s hs hl
        rcases List.mem_cons.mp hs with rfl | hs
        · exact Nat.le_trans ihmin1 hmin_le.2
        · exact ihmin2 s hs hl
      · rcases ihmin3 with h | ⟨s, hs, hl, he⟩
        · rcases hmin_eq with h2 | h2
          · exact Or.inl (h.trans h2)
          · exact Or.inr ⟨seg, List.mem_cons_self _ _, h0, h.trans h2⟩
        · exact Or.inr ⟨s, List.mem_cons_of_mem _ hs, hl, he⟩
      · exact Nat.le_trans hmax_le.1 ihmax1
      · intro s hs hl
        rcases List.mem_cons.mp hs with rfl | hs
        · exact Nat.le_trans hmax_le.2 ihmax1
        · exact ihmax2 s hs hl
      · rcases ihmax3 with h | ⟨s, hs, hl, he⟩
        · rcases hmax_eq with h2 | h2
          · exact Or.inl (h.trans h2)
          · exact Or.inr ⟨seg, List.mem_cons_self _ _, h0, h.trans h2⟩
        · exact Or.inr ⟨s, List.mem_cons_of_mem _ hs, hl, he⟩
    · have hs : scan_step T st seg = st := by simp [scan_step, h0]
      rw [hs] at ihf ihmin1 ihmin2 ihmin3 ihmax1 ihmax2 ihmax3 ⊢
      refine ⟨?_, ⟨ihmin1, ?_⟩, ?_, ⟨ihmax1, ?_⟩, ?_⟩
      · rw [ihf]
        constructor
        · rintro (h | ⟨s, hs, hl⟩)
          · exact Or.inl h
          · exact Or.inr ⟨s, List.mem_cons_of_mem _ hs, hl⟩
        · rintro (h | ⟨s, hs, hl⟩)
          · exact Or.inl h
          · rcases List.mem_cons.mp hs with rfl | hs
            · exact absurd hl h0
            · exact Or.inr ⟨s, hs, hl⟩
      · intro s hs hl
        rcases List.mem_cons.mp hs with rfl | hs
        · exact absurd hl h0
        · exact ihmin2 s hs hl
      · rcases ihmin3 with h | ⟨s, hs, hl, he⟩
        · exact Or.inl h
        · exact Or.inr ⟨s, List.mem_cons_of_mem _ hs, hl, he⟩
      · intro s hs hl
        rcases List.mem_cons.mp hs with rfl | hs
        · exact absurd hl h0
        · exact ihmax2 s hs hl
      · rcases ihmax3 with h | ⟨s, hs, hl, he⟩
        · exact Or.inl h
        · exact Or.inr ⟨s, List.mem_cons_of_mem _ hs, hl, he⟩

/-- C1, as stated, fails: on the main thread with recorded stack top `0x7000` and the resolver
frame at `0x6F00`, the pointer `0x6F00` satisfies `currentFrame <= p < stackTop`, yet the
resolver does not return `0x7000 - 0x6F00 = 0x100`: the test `ptr > stack_base` is strict and
`stack_base` is the frame address, so the pointer is handed to the allocator. -/
theorem C1_counterexample :
    ctx_main.globals.enable_object_size_checks = true ∧ ctx_main.thread.in_malloc = false ∧
    ctx_main.thread.tid = ctx_main.pid ∧
    ctx_main.globals.main_thread_stack_top = 0x7000 ∧
    (stack_bounds ctx_main).1 ≤ ctx_main.frame ∧ ctx_main.frame ≤ (stack_bounds ctx_main).2 ∧
    ctx_main.frame ≤ 0x6F00 ∧ 0x6F00 < ctx_main.globals.main_thread_stack_top ∧
    __dynamic_object_size ctx_main 0x6F00 =
      ([.malloc_object_size 0x6F00], .ret (ctx_main.malloc_answer 0x6F00)) ∧
    (__dynamic_object_size ctx_main 0x6F00).2 ≠ .ret (0x7000 - 0x6F00) := by
  decide

/-- C1 (amended): with checks enabled and the thread not inside the allocator, for every thread
(main or not) and every pointer `p` with `currentFrame <= p < stackTop` that is also strictly
above `stack_base` (on the main thread `stack_base` is the current frame, so `p > currentFrame`
there), the resolver returns exactly `stackTop - p` without consulting the allocator, whatever
the executable range is; `stackTop` is the recorded `main_thread_stack_top` on the main thread
and `stack_base + stack_size` on any other thread. -/
theorem C1_stack_remaining (c : Ctx) (p : Nat)
    (henabled : c.globals.enable_object_size_checks = true)
    (hmalloc : c.thread.in_malloc = false)
    (hbase : (stack_bounds c).1 < p) (hframe : c.frame ≤ p) (htop : p < (stack_bounds c).2) :
    __dynamic_object_size c p = ([], .ret ((stack_bounds c).2 - p)) ∧
    (stack_bounds c).2 =
      (if c.thread.tid = c.pid then c.globals.main_thread_stack_top
       else (c.thread.attr.stack_base + c.thread.attr.stack_size) % c.T.modulus) := by
  refine ⟨?_, stack_top_eq c⟩
  unfold __dynamic_object_size
  rw [guard_open c henabled hmalloc]
  have hnf : ¬ p < c.frame := Nat.not_lt.mpr hframe
  simp [hbase, htop, hnf]
  rfl

/-- C1 (amended), the example of the claim: stack top `0x7000`, pointer `0x6F00` above both the
stack base and the frame of a non-main thread, result `0x100`. -/
theorem C1_stack_remaining_witness :
    __dynamic_object_size ctx_thread 0x6F00 = ([], .ret 0x100) :=
  (C1_stack_remaining ctx_thread 0x6F00 (by decide) (by decide) (by decide) (by decide)
    (by decide)).1

/-- C2: with checks enabled and the thread not inside the allocator, when the current frame is
not above the stack top, every pointer `p` with `stack_base < p < currentFrame` sends the
resolver into `__libc_fatal` (with the address, the stack base and the frame): no value is
returned and the allocator is not consulted, whatever the executable range is. -/
theorem C2_unused_stack_fatal (c : Ctx) (p : Nat)
    (henabled : c.globals.enable_object_size_checks = true)
    (hmalloc : c.thread.in_malloc = false)
    (hframe_top : c.frame ≤ (stack_bounds c).2)
    (hbase : (stack_bounds c).1 < p) (hframe : p < c.frame) :
    __dynamic_object_size c p = ([], .libc_fatal p (stack_bounds c).1 c.frame) := by
  unfold __dynamic_object_size
  rw [guard_open c henabled hmalloc]
  have htop : p < (stack_bounds c).2 := Nat.lt_of_lt_of_le hframe hframe_top
  simp [hbase, htop, hframe]
  rfl

/-- C2 at a concrete input: a thread with stack `[0x1000, 0x7000)` and frame `0x6F00`, pointer
`0x2000`. -/
theorem C2_unused_stack_fatal_witness :
    __dynamic_object_size ctx_thread 0x2000 = ([], .libc_fatal 0x2000 0x1000 0x6F00) :=
  C2_unused_stack_fatal ctx_thread 0x2000 (by decide) (by decide) (by decide) (by decide)
    (by decide)

/-- C3, as stated, fails: with the image recorded at `[0x10000, 0x12000)` the pointer
`p = executableStart = 0x10000` lies outside the stack of the main thread, yet the resolver
does not return the image size `0x2000`: the test `ptr > executable_start` is strict, so the
pointer is handed to the allocator. -/
theorem C3_counterexample :
    ctx_main.globals.enable_object_size_checks = true ∧ ctx_main.thread.in_malloc = false ∧
    ctx_main.globals.executable_start = 0x10000 ∧ ctx_main.globals.executable_end = 0x12000 ∧
    stack_bounds ctx_main = (0x6F00, 0x7000) ∧
    __dynamic_object_size ctx_main 0x10000 =
      ([.malloc_object_size 0x10000], .ret (ctx_main.malloc_answer 0x10000)) ∧
    (__dynamic_object_size ctx_main 0x10000).2 ≠ .ret (0x12000 - 0x10000) := by
  decide

/-- C3 (amended): with checks enabled and the thread not inside the allocator, for every pointer
`p` with `executableStart < p < executableEnd` (strictly above the start) that is not strictly
between the stack base and the stack top of the calling thread, the resolver returns exactly
`executableEnd - p` without asking the allocator. -/
theorem C3_image_remaining (c : Ctx) (p : Nat)
    (henabled : c.globals.enable_object_size_checks = true)
    (hmalloc : c.thread.in_malloc = false)
    (hstack : ¬ ((stack_bounds c).1 < p ∧ p < (stack_bounds c).2))
    (hstart : c.globals.executable_start < p) (hend : p < c.globals.executable_end) :
    __dynamic_object_size c p = ([], .ret (c.globals.executable_end - p)) := by
  unfold __dynamic_object_size
  rw [guard_open c henabled hmalloc]
  simp only [gt_iff_lt, Bool.false_eq_true, if_false, hstack, hstart, hend, and_self, if_true]
  rfl

/-- C3 (amended) at a concrete input: image `[0x10000, 0x12000)`, pointer `0x10001`. -/
theorem C3_image_remaining_witness :
    __dynamic_object_size ctx_main 0x10001 = ([], .ret 0x1FFF) :=
  C3_image_remaining ctx_main 0x10001 (by decide) (by decide) (by decide) (by decide)
    (by decide)

/-- C4: with checks enabled and the thread not inside the allocator, for every pointer `p` that
is not strictly between the stack base and the stack top of the calling thread (in particular
every `p` outside `[stack_base, stackTop)`) and not strictly between the recorded executable
start and end (in particular every `p` outside `[executableStart, executableEnd)`), the resolver
asks `__malloc_object_size(p)` once and returns its answer unchanged, whatever that answer is;
it does not abort. -/
theorem C4_heap_fallback (c : Ctx) (p : Nat)
    (henabled : c.globals.enable_object_size_checks = true)
    (hmalloc : c.thread.in_malloc = false)
    (hstack : ¬ ((stack_bounds c).1 < p ∧ p < (stack_bounds c).2))
    (himage : ¬ (c.globals.executable_start < p ∧ p < c.globals.executable_end)) :
    __dynamic_object_size c p = __malloc_object_size c p ∧
    __dynamic_object_size c p = ([.malloc_object_size p], .ret (c.malloc_answer p)) := by
  have h : __dynamic_object_size c p = __malloc_object_size c p := by
    unfold __dynamic_object_size
    rw [guard_open c henabled hmalloc]
    simp only [gt_iff_lt, Bool.false_eq_true, if_false, hstack, himage]
  exact ⟨h, h⟩

/-- C4 at a concrete input: pointer `0x20000` is outside the stack and the image; the allocator
reports 32 bytes. -/
theorem C4_heap_fallback_witness :
    __dynamic_object_size ctx_heap32 0x20000 = ([.malloc_object_size 0x20000], .ret 32) :=
  (C4_heap_fallback ctx_heap32 0x20000 (by decide) (by decide) (by decide) (by decide)).2

/-- C5: if `enable_object_size_checks` is false or the calling thread has `in_malloc` set, the
resolver returns the Unknown sentinel for every pointer, thread descriptor, frame address and
recorded range: it does not abort, returns no region-derived count and makes no call of
`__malloc_object_size` (the trace is empty). -/
theorem C5_fast_exit (c : Ctx) (p : Nat)
    (h : c.globals.enable_object_size_checks = false ∨ c.thread.in_malloc = true) :
    __dynamic_object_size c p = ([], .ret (__BIONIC_FORTIFY_UNKNOWN_SIZE c.T)) := by
  unfold __dynamic_object_size
  have hg : (!c.globals.enable_object_size_checks || c.thread.in_malloc) = true := by
    rcases h with h | h <;> simp [h]
  rw [hg]
  rfl

/-- C5 at a concrete input: inside the allocator, a pointer in unused stack space (which aborts
when the flag is clear) yields Unknown. -/
theorem C5_fast_exit_witness :
    __dynamic_object_size ctx_in_malloc 0x2000 = ([], .ret (2 ^ 64 - 1)) :=
  C5_fast_exit ctx_in_malloc 0x2000 (Or.inr (by decide))

/-! ## The load-range scanner and the enumeration callback (C6, C7) -/

/-- C6, as stated, fails: for the single loadable segment `p_vaddr = 0x1000`,
`p_memsz = 0x2050` and page size `0x1000` the segment ends at `0x3050`, which rounds up to
`0x4000`; the function stores `max_vaddr = 0x4000`, not `0x3000`, and returns `0x3000`, not
`0x2000`. -/
theorem C6_counterexample :
    lp64.PAGE_SIZE = 0x1000 ∧
    phdr_table_get_load_size lp64 [scenario_segment] true true =
      { ret := 0x3000, out_min_vaddr := some 0x1000, out_max_vaddr := some 0x4000 } ∧
    (phdr_table_get_load_size lp64 [scenario_segment] true true).out_max_vaddr ≠ some 0x3000 ∧
    (phdr_table_get_load_size lp64 [scenario_segment] true true).ret ≠ 0x2000 := by
  decide

/-- C6 (amended): for a segment table holding exactly one loadable segment with
`p_vaddr = 0x1000` and `p_memsz = 0x2050`, with page size `0x1000` (on a 64-bit and on a 32-bit
target), `phdr_table_get_load_size` writes `min_vaddr = 0x1000` and `max_vaddr = 0x4000` (the
range `[0x1000, 0x4000)`) and returns the size `0x3000`; with null out pointers it stores nothing
and returns the same size. -/
theorem C6_single_segment_range :
    phdr_table_get_load_size lp64 [scenario_segment] true true =
      { ret := 0x3000, out_min_vaddr := some 0x1000, out_max_vaddr := some 0x4000 } ∧
    phdr_table_get_load_size ilp32 [scenario_segment] true true =
      { ret := 0x3000, out_min_vaddr := some 0x1000, out_max_vaddr := some 0x4000 } ∧
    phdr_table_get_load_size lp64 [scenario_segment] false false =
      { ret := 0x3000, out_min_vaddr := none, out_max_vaddr := none } ∧
    phdr_table_get_load_size ilp32 [scenario_segment] false false =
      { ret := 0x3000, out_min_vaddr := none, out_max_vaddr := none } := by
  decide

/-- C7, the code at a failing input: the image `scenario_image` has base `0x10000` and load
range `(min, max) = (0x1000, 0x4000)`, so the claim asks for `executable_start = base + min =
0x11000` and `executable_end = base + max = 0x14000`, the range where the image is mapped. The
callback passes null out pointers and records `executable_start = 0x10000` (the base) and
`executable_end = 0x13000` (`base + (max - min)`). With these globals the pointer `0x12FF0`,
which has 32 bytes and more left inside the mapped segment `[0x11000, 0x13050)`, is resolved to
`0x10` bytes, and a `read` of 32 bytes into it is aborted. -/
theorem C7_callback_drops_min :
    scenario_image.dlpi_addr = 0x10000 ∧
    (phdr_table_get_load_size lp64 scenario_image.dlpi_phdr true true).out_min_vaddr
      = some 0x1000 ∧
    (phdr_table_get_load_size lp64 scenario_image.dlpi_phdr true true).out_max_vaddr
      = some 0x4000 ∧
    (callback lp64 scenario_image ctx_main.globals).1 = 1 ∧
    (callback lp64 scenario_image ctx_main.globals).2.executable_start = 0x10000 ∧
    (callback lp64 scenario_image ctx_main.globals).2.executable_start ≠ 0x10000 + 0x1000 ∧
    (callback lp64 scenario_image ctx_main.globals).2.executable_end = 0x13000 ∧
    (callback lp64 scenario_image ctx_main.globals).2.executable_end ≠ 0x10000 + 0x4000 ∧
    scenario_image.dlpi_addr + scenario_segment.p_vaddr ≤ 0x12FF0 ∧
    0x12FF0 + 32 ≤
      scenario_image.dlpi_addr + scenario_segment.p_vaddr + scenario_segment.p_memsz ∧
    __dynamic_object_size ctx_scanned 0x12FF0 = ([], .ret 0x10) ∧
    (read ctx_scanned 0 0x12FF0 32).2
      = .fortify_chk_fail "read: prevented write past end of buffer" := by
  decide

/-! ## The fortified entry points (C8 - C10) -/

/-- C8: for every entry point that performs the check itself (`read`, `__read_chk`, `write`,
`__write_chk`, `pread64`, `pwrite64`, `recvfrom`, `__recvfrom_chk`, `sendto`, `__sendto_chk`,
`readlinkat`, `__readlinkat_chk`, `__readlink_chk`, and `getcwd` / `__getcwd_chk` with a non-null
buffer) and every call whose declared length is strictly greater than the value
`__dynamic_object_size(buf)` returns, the call ends in `__fortify_chk_fail` and the
`__unchecked_*` primitive is never called. -/
theorem C8_violation_aborts (c : Ctx) (buf n len : Nat)
    (hn : (__dynamic_object_size c buf).2 = .ret n) (hgt : n < len) :
    every_checking_entry_aborts c buf len :=
  all_abort c buf n len hn hgt

/-- C8 at the example of the claim: `write` with declared length 64 on a buffer of resolved
size 32. -/
theorem C8_violation_aborts_witness :
    (write ctx_heap32 1 0x20000 64).aborts_with "write: prevented read past end of buffer" :=
  (C8_violation_aborts ctx_heap32 0x20000 32 64 (by decide) (by decide)).2.2.1 1

/-- C9: for every entry point and every call whose declared length is at most the value
`__dynamic_object_size(buf)` returns (equality included), the wrapper calls its `__unchecked_*`
primitive exactly once with the caller's arguments unchanged and returns the answer of the
primitive unchanged, whatever that answer is. -/
theorem C9_within_bounds_delegates (c : Ctx) (buf n len : Nat)
    (hn : (__dynamic_object_size c buf).2 = .ret n) (hle : len ≤ n) :
    every_entry_delegates c buf len :=
  all_delegate c buf n len hn hle

/-- C9 at the example of the claim: `write` with declared length 16 on a buffer of resolved
size 32, the primitive answering the error result `-1`. -/
theorem C9_within_bounds_delegates_witness :
    (write ctx_heap32 1 0x20000 16).delegates_to (.__unchecked_write 1 0x20000 16) (-1) :=
  (C9_within_bounds_delegates ctx_heap32 0x20000 32 16 (by decide) (by decide)).2.2.1 1

/-- C10: whenever `__dynamic_object_size(buf)` returns the Unknown sentinel, every entry point
hands the call to its `__unchecked_*` primitive for every declared length a `size_t` can hold,
the largest one included: an Unknown size never causes an abort. -/
theorem C10_unknown_never_aborts (c : Ctx) (buf len : Nat)
    (hU : (__dynamic_object_size c buf).2 = .ret (__BIONIC_FORTIFY_UNKNOWN_SIZE c.T))
    (hlen : len < c.T.modulus) :
    every_entry_delegates c buf len :=
  all_delegate c buf (__BIONIC_FORTIFY_UNKNOWN_SIZE c.T) len hU
    (by unfold __BIONIC_FORTIFY_UNKNOWN_SIZE; omega)

/-- C10 at a concrete input: the allocator reports Unknown for `0x20000` and `read` is called
with the largest 64-bit length. -/
theorem C10_unknown_never_aborts_witness :
    (read ctx_main 0 0x20000 (2 ^ 64 - 1)).delegates_to
      (.__unchecked_read 0 0x20000 (2 ^ 64 - 1)) (-1) :=
  (C10_unknown_never_aborts ctx_main 0x20000 (2 ^ 64 - 1) (by decide) (by decide)).1 0

/-! ## Checked variants, re-dispatching entry points and diagnostics (C11, C12, C17, C20) -/

/-- C11: each checked variant decides exactly as its plain counterpart. For every buffer,
declared length and caller-declared capacity, `__read_chk` aborts iff `read` aborts, and likewise
`__write_chk`/`write`, `__readlinkat_chk`/`readlinkat`, `__readlink_chk`/`readlink`,
`__getcwd_chk`/`getcwd`, `__recvfrom_chk`/`recvfrom`, `__sendto_chk`/`sendto`; the bounds abort
of the checked variant happens exactly when the declared length exceeds
`__dynamic_object_size(buf)` (for `__getcwd_chk`, and the buffer is not null), a condition in
which the declared capacity does not occur. -/
theorem C11_checked_variants_agree (c : Ctx) (buf len : Nat) :
    (∀ fd buf_size,
      same_abort_decision (__read_chk c fd buf len buf_size) (read c fd buf len) ∧
      ((__read_chk c fd buf len buf_size).fortify_aborts ↔ violation c buf len)) ∧
    (∀ fd buf_size,
      same_abort_decision (__write_chk c fd buf len buf_size) (write c fd buf len) ∧
      ((__write_chk c fd buf len buf_size).fortify_aborts ↔ violation c buf len)) ∧
    (∀ dirfd path buf_size,
      same_abort_decision (__readlinkat_chk c dirfd path buf len buf_size)
        (readlinkat c dirfd path buf len) ∧
      ((__readlinkat_chk c dirfd path buf len buf_size).fortify_aborts ↔ violation c buf len)) ∧
    (∀ path buf_size,
      same_abort_decision (__readlink_chk c path buf len buf_size) (readlink c path buf len) ∧
      ((__readlink_chk c path buf len buf_size).fortify_aborts ↔ violation c buf len)) ∧
    (∀ buflen,
      same_abort_decision (__getcwd_chk c buf len buflen) (getcwd c buf len) ∧
      ((__getcwd_chk c buf len buflen).fortify_aborts ↔ (buf ≠ 0 ∧ violation c buf len))) ∧
    (∀ socket buflen flags src_addr addrlen,
      same_abort_decision (__recvfrom_chk c socket buf len buflen flags src_addr addrlen)
        (recvfrom c socket buf len flags src_addr addrlen) ∧
      ((__recvfrom_chk c socket buf len buflen flags src_addr addrlen).fortify_aborts ↔
        violation c buf len)) ∧
    (∀ socket buflen flags dest_addr addrlen,
      same_abort_decision (__sendto_chk c socket buf len buflen flags dest_addr addrlen)
        (sendto c socket buf len flags dest_addr addrlen) ∧
      ((__sendto_chk c socket buf len buflen flags dest_addr addrlen).fortify_aborts ↔
        violation c buf len)) := by
  refine ⟨?_, ?_, ?_, ?_, ?_, ?_, ?_⟩
  · intro fd buf_size
    exact ⟨guarded_same_decision c buf len _ _ _ _ (call_unchecked_returns c _)
        (call_unchecked_returns c _),
      fortify_aborts_iff_of_diagnostic _ _ _
        (guarded_diagnostic c buf len _ _ (call_unchecked_returns c _))⟩
  · intro fd buf_size
    exact ⟨guarded_same_decision c buf len _ _ _ _ (call_unchecked_returns c _)
        (call_unchecked_returns c _),
      fortify_aborts_iff_of_diagnostic _ _ _
        (guarded_diagnostic c buf len _ _ (call_unchecked_returns c _))⟩
  · intro dirfd path buf_size
    exact ⟨guarded_same_decision c buf len _ _ _ _ (call_unchecked_returns c _)
        (call_unchecked_returns c _),
      fortify_aborts_iff_of_diagnostic _ _ _
        (guarded_diagnostic c buf len _ _ (call_unchecked_returns c _))⟩
  · intro path buf_size
    exact ⟨guarded_same_decision c buf len _ _ _ _ (call_unchecked_returns c _)
        (call_unchecked_returns c _),
      fortify_aborts_iff_of_diagnostic _ _ _
        (guarded_diagnostic c buf len _ _ (call_unchecked_returns c _))⟩
  · intro buflen
    exact ⟨getcwd_same_decision c buf len buflen,
      fortify_aborts_iff_of_diagnostic _ _ _ (getcwd_chk_diagnostic c buf len buflen)⟩
  · intro socket buflen flags src_addr addrlen
    exact ⟨guarded_same_decision c buf len _ _ _ _ (call_unchecked_returns c _)
        (call_unchecked_returns c _),
      fortify_aborts_iff_of_diagnostic _ _ _
        (guarded_diagnostic c buf len _ _ (call_unchecked_returns c _))⟩
  · intro socket buflen flags dest_addr addrlen
    exact ⟨guarded_same_decision c buf len _ _ _ _ (call_unchecked_returns c _)
        (call_unchecked_returns c _),
      fortify_aborts_iff_of_diagnostic _ _ _
        (guarded_diagnostic c buf len _ _ (call_unchecked_returns c _))⟩

/-- C12: the re-dispatching entry points are equal, as runs (trace and outcome), to their
fortified counterparts for all arguments: `pread` is `pread64` and `pwrite` is `pwrite64` on the
widened offset, `send` is `sendto` and `recv` is `recvfrom` with a null address and length `0`,
`readlink` is `readlinkat` on `AT_FDCWD`; hence each ends in the bounds abort exactly when the
declared length exceeds `__dynamic_object_size(buf)`. -/
theorem C12_redispatch_equal (c : Ctx) (buf n : Nat) :
    (∀ fd offset, pread c fd buf n offset = pread64 c fd buf n offset ∧
      ((pread c fd buf n offset).fortify_aborts ↔ violation c buf n)) ∧
    (∀ fd offset, pwrite c fd buf n offset = pwrite64 c fd buf n offset ∧
      ((pwrite c fd buf n offset).fortify_aborts ↔ violation c buf n)) ∧
    (∀ s flags, send c s buf n flags = sendto c s buf n flags 0 0 ∧
      ((send c s buf n flags).fortify_aborts ↔ violation c buf n)) ∧
    (∀ s flags, recv c s buf n flags = recvfrom c s buf n flags 0 0 ∧
      ((recv c s buf n flags).fortify_aborts ↔ violation c buf n)) ∧
    (∀ path, readlink c path buf n = readlinkat c AT_FDCWD path buf n ∧
      ((readlink c path buf n).fortify_aborts ↔ violation c buf n)) := by
  refine ⟨?_, ?_, ?_, ?_, ?_⟩
  · intro fd offset
    exact ⟨rfl, fortify_aborts_iff_of_diagnostic _ _ _
      (guarded_diagnostic c buf n _ _ (call_unchecked_returns c _))⟩
  · intro fd offset
    exact ⟨rfl, fortify_aborts_iff_of_diagnostic _ _ _
      (guarded_diagnostic c buf n _ _ (call_unchecked_returns c _))⟩
  · intro s flags
    exact ⟨rfl, fortify_aborts_iff_of_diagnostic _ _ _
      (guarded_diagnostic c buf n _ _ (call_unchecked_returns c _))⟩
  · intro s flags
    exact ⟨rfl, fortify_aborts_iff_of_diagnostic _ _ _
      (guarded_diagnostic c buf n _ _ (call_unchecked_returns c _))⟩
  · intro path
    exact ⟨rfl, fortify_aborts_iff_of_diagnostic _ _ _
      (guarded_diagnostic c buf n _ _ (call_unchecked_returns c _))⟩

/-- C17, as stated, fails: with a buffer of resolved size 32 and declared length 64, the
re-dispatching entry points abort with the diagnostic of their counterpart, not with their own
name: `pread` reports `pread64`, `pwrite` reports `pwrite64`, `send` reports `sendto`, `recv`
reports `recvfrom` and `readlink` reports `readlinkat`. -/
theorem C17_counterexample :
    (pread ctx_heap32 1 0x20000 64 0).2
      = .fortify_chk_fail "pread64: prevented write past end of buffer" ∧
    (pread ctx_heap32 1 0x20000 64 0).2
      ≠ .fortify_chk_fail "pread: prevented write past end of buffer" ∧
    (pwrite ctx_heap32 1 0x20000 64 0).2
      = .fortify_chk_fail "pwrite64: prevented read past end of buffer" ∧
    (pwrite ctx_heap32 1 0x20000 64 0).2
      ≠ .fortify_chk_fail "pwrite: prevented read past end of buffer" ∧
    (send ctx_heap32 1 0x20000 64 0).2
      = .fortify_chk_fail "sendto: prevented read past end of buffer" ∧
    (send ctx_heap32 1 0x20000 64 0).2
      ≠ .fortify_chk_fail "send: prevented read past end of buffer" ∧
    (recv ctx_heap32 1 0x20000 64 0).2
      = .fortify_chk_fail "recvfrom: prevented write past end of buffer" ∧
    (recv ctx_heap32 1 0x20000 64 0).2
      ≠ .fortify_chk_fail "recv: prevented write past end of buffer" ∧
    (readlink ctx_heap32 0x30000 0x20000 64).2
      = .fortify_chk_fail "readlinkat: prevented write past end of buffer" ∧
    (readlink ctx_heap32 0x30000 0x20000 64).2
      ≠ .fortify_chk_fail "readlink: prevented write past end of buffer" := by
  decide

/-- C17 (amended): for every entry point of the file and every call that ends in a
bounds-violation abort, the diagnostic names the function that performs the check and the
direction of the violation. The entry points that check themselves report their base operation
(`read`, `write`, `pread64`, `pwrite64`, `recvfrom`, `sendto`, `readlinkat`, `getcwd`, and
`readlink` for `__readlink_chk`); the re-dispatching entry points report their counterpart
(`pread` as `pread64`, `pwrite` as `pwrite64`, `send` as `sendto`, `recv` as `recvfrom`,
`readlink` as `readlinkat`). The direction is "prevented write past end of buffer" for the
buffer-filling operations and "prevented read past end of buffer" for the buffer-reading ones,
and the abort happens exactly when the declared length exceeds the resolved size. -/
theorem C17_diagnostics (c : Ctx) (buf len : Nat) : every_entry_diagnostic c buf len :=
  all_diagnostics c buf len

/-- C20: `getcwd` and `__getcwd_chk` exempt a null buffer from the guard. For `buf = null` and
every declared size and `buflen`, the run is exactly the call of `__unchecked_getcwd` /
`__unchecked___getcwd_chk` with the caller's arguments: no abort, no size query, and the answer
of the primitive is returned. For any buffer the bounds abort happens exactly when the buffer is
not null and the declared size exceeds `__dynamic_object_size(buf)`. -/
theorem C20_getcwd_null_exempt (c : Ctx) (buf size buflen : Nat) :
    getcwd c 0 size =
      ([.unchecked (.__unchecked_getcwd 0 size)],
        .ret (c.unchecked_ptr_answer (.__unchecked_getcwd 0 size))) ∧
    __getcwd_chk c 0 size buflen =
      ([.unchecked (.__unchecked___getcwd_chk 0 size buflen)],
        .ret (c.unchecked_ptr_answer (.__unchecked___getcwd_chk 0 size buflen))) ∧
    ((getcwd c buf size).fortify_aborts ↔ (buf ≠ 0 ∧ violation c buf size)) ∧
    ((__getcwd_chk c buf size buflen).fortify_aborts ↔ (buf ≠ 0 ∧ violation c buf size)) := by
  refine ⟨?_, ?_, ?_, ?_⟩
  · simp [getcwd, call_unchecked_ptr]
  · simp [__getcwd_chk, call_unchecked_ptr]
  · exact fortify_aborts_iff_of_diagnostic _ _ _ (getcwd_diagnostic c buf size)
  · exact fortify_aborts_iff_of_diagnostic _ _ _ (getcwd_chk_diagnostic c buf size buflen)

/-! ## The resolver on the main thread and determinism (C13, C16, C19) -/

/-- C13: if `main_thread_stack_top` is null then on the main thread, with checks enabled and not
inside the allocator, stack classification never matches: for every pointer and every frame
address the resolver returns a value (it does not abort), and the run is the image case
(`executableEnd - p`, no allocator query) when `executableStart < p < executableEnd` and the
query `__malloc_object_size(p)` otherwise. -/
theorem C13_no_main_stack_top (c : Ctx) (p : Nat)
    (henabled : c.globals.enable_object_size_checks = true)
    (hmalloc : c.thread.in_malloc = false)
    (hmain : c.thread.tid = c.pid) (htop : c.globals.main_thread_stack_top = 0) :
    __dynamic_object_size c p =
      (if c.globals.executable_start < p ∧ p < c.globals.executable_end then
        ([], .ret (c.globals.executable_end - p))
      else __malloc_object_size c p) ∧
    ∃ v, (__dynamic_object_size c p).2 = .ret v := by
  have hb : stack_bounds c = (0, 0) := by simp [stack_bounds, hmain, htop]
  have h : __dynamic_object_size c p =
      (if c.globals.executable_start < p ∧ p < c.globals.executable_end then
        ([], .ret (c.globals.executable_end - p))
      else __malloc_object_size c p) := by
    unfold __dynamic_object_size
    rw [guard_open c henabled hmalloc, hb]
    simp only [gt_iff_lt, Bool.false_eq_true, if_false, Nat.not_lt_zero, and_false]
    rfl
  refine ⟨h, ?_⟩
  rw [h]
  split
  · exact ⟨_, rfl⟩
  · exact ⟨_, rfl⟩

/-- C13 at a concrete input: with no recorded top, the pointer `0x6F80` (above the frame
`0x6F00`) is handed to the allocator. -/
theorem C13_no_main_stack_top_witness :
    __dynamic_object_size ctx_no_stack_top 0x6F80 =
      ([.malloc_object_size 0x6F80], .ret (2 ^ 64 - 1)) :=
  (C13_no_main_stack_top ctx_no_stack_top 0x6F80 (by decide) (by decide) (by decide)
    (by decide)).1

/-- C19: on the main thread the fatal invalid-pointer branch is unreachable. For every pointer,
frame address and process state a call on the main thread returns a value (a count or Unknown)
and does not end in `__libc_fatal`; with checks enabled and outside the allocator, a pointer
below the current frame is classified by the executable-range test and the allocator instead. -/
theorem C19_main_thread_never_fatal (c : Ctx) (p : Nat) (hmain : c.thread.tid = c.pid) :
    (∃ v, (__dynamic_object_size c p).2 = .ret v) ∧
    (∀ q b s, (__dynamic_object_size c p).2 ≠ .libc_fatal q b s) ∧
    (c.globals.enable_object_size_checks = true → c.thread.in_malloc = false → p < c.frame →
      __dynamic_object_size c p =
        (if c.globals.executable_start < p ∧ p < c.globals.executable_end then
          ([], .ret (c.globals.executable_end - p))
        else __malloc_object_size c p)) := by
  have hbase : ¬ ((stack_bounds c).1 < p ∧ p < (stack_bounds c).2 ∧ p < c.frame) := by
    unfold stack_bounds
    by_cases htop : c.globals.main_thread_stack_top = 0
    · simp [hmain, htop]
    · simp only [hmain, if_true, ne_eq, htop, not_false_eq_true]
      omega
  have hret : ∃ v, (__dynamic_object_size c p).2 = .ret v := by
    unfold __dynamic_object_size
    split
    · exact ⟨_, rfl⟩
    · simp only []
      split
      · rename_i hin
        split
        · rename_i hlt
          exact absurd ⟨hin.1, hin.2, hlt⟩ hbase
        · exact ⟨_, rfl⟩
      · split
        · exact ⟨_, rfl⟩
        · exact ⟨_, rfl⟩
  refine ⟨hret, ?_, ?_⟩
  · intro q b s hfatal
    obtain ⟨v, hv⟩ := hret
    rw [hv] at hfatal
    cases hfatal
  · intro henabled hmalloc hlt
    have hstack : ¬ ((stack_bounds c).1 < p ∧ p < (stack_bounds c).2) :=
      fun h => hbase ⟨h.1, h.2, hlt⟩
    unfold __dynamic_object_size
    rw [guard_open c henabled hmalloc]
    simp only [gt_iff_lt, Bool.false_eq_true, if_false, hstack]
    rfl

/-- C19 at a concrete input: on the main thread with frame `0x6F00` the pointer `0x2000`, below
the frame, is handed to the allocator. -/
theorem C19_main_thread_never_fatal_witness :
    __dynamic_object_size ctx_main 0x2000 =
      (if ctx_main.globals.executable_start < 0x2000 ∧ 0x2000 < ctx_main.globals.executable_end
        then ([], .ret (ctx_main.globals.executable_end - 0x2000))
        else __malloc_object_size ctx_main 0x2000) :=
  (C19_main_thread_never_fatal ctx_main 0x2000 (by decide)).2.2 (by decide) (by decide)
    (by decide)

/-! ## Initialisation and segment enumeration (C14, C18) -/

/-- C14: for every initial state and every outcome of the collaborators (the images the
enumeration reports, the result of the `/proc/self/stat` access check, the result of the
main-thread stack lookup), `__libc_init_dynamic_object_size` leaves
`enable_object_size_checks = true`; it sets `main_thread_stack_top = base + size` (in the machine
word) exactly when the access check does not return `-1` and the stack lookup returns `0`, and
otherwise leaves `main_thread_stack_top` at its prior value. -/
theorem C14_init_effects (T : Target) (env : InitEnv) (globals : libc_globals) :
    (__libc_init_dynamic_object_size T env globals).enable_object_size_checks = true ∧
    (__libc_init_dynamic_object_size T env globals).main_thread_stack_top =
      (if env.access_result ≠ -1 ∧ env.getstack_result = 0 then
        (env.current_base + env.current_size) % T.modulus
      else globals.main_thread_stack_top) := by
  have hf := dl_iterate_callback_frame T env.images
    { globals with enable_object_size_checks := true }
  unfold __libc_init_dynamic_object_size
  by_cases ha : env.access_result = -1
  · simp only [ha, if_true, ne_eq, not_true_eq_false, false_and, if_false]
    exact ⟨hf.1, hf.2⟩
  · by_cases hs : env.getstack_result = 0
    · simp only [ha, if_false, ne_eq, hs, not_true_eq_false, not_false_eq_true, and_self,
        if_true]
      exact ⟨hf.1, trivial⟩
    · simp only [ha, if_false, ne_eq, hs, not_false_eq_true, if_true, and_false]
      exact ⟨hf.1, hf.2⟩

/-- C18: with segment enumeration applying the callback to the loaded images in order and
stopping at the first non-zero return. For an image with a null base the callback returns 0 and
leaves every field of the process state unchanged; for an image with a non-null base it returns 1
and leaves `enable_object_size_checks` and `main_thread_stack_top` unchanged. Hence for every
sequence of images the result is that of the callback on the first image with a non-null base,
whatever images follow it; and if no image has a non-null base the state is unchanged, so
`executable_start` and `executable_end` keep their initial null values and no pointer satisfies
the executable-image test. -/
theorem C18_first_nonnull_image (T : Target) (data : libc_globals) :
    (∀ info, info.dlpi_addr = 0 → callback T info data = (0, data)) ∧
    (∀ info, info.dlpi_addr ≠ 0 →
      (callback T info data).1 = 1 ∧
      (callback T info data).2.enable_object_size_checks = data.enable_object_size_checks ∧
      (callback T info data).2.main_thread_stack_top = data.main_thread_stack_top) ∧
    (∀ pre info rest, (∀ i ∈ pre, i.dlpi_addr = 0) → info.dlpi_addr ≠ 0 →
      dl_iterate_phdr (callback T) (pre ++ info :: rest) data = callback T info data) ∧
    (∀ images, (∀ i ∈ images, i.dlpi_addr = 0) →
      dl_iterate_phdr (callback T) images data = (0, data)) ∧
    (data.executable_start = 0 → data.executable_end = 0 →
      ∀ images, (∀ i ∈ images, i.dlpi_addr = 0) → ∀ p,
        ¬ ((dl_iterate_phdr (callback T) images data).2.executable_start < p ∧
            p < (dl_iterate_phdr (callback T) images data).2.executable_end)) := by
  refine ⟨?_, ?_, ?_, ?_, ?_⟩
  · intro info h
    exact callback_null T info data h
  · intro info h
    exact ⟨callback_nonnull T info data h, callback_frame T info data⟩
  · intro pre info rest hpre hinfo
    exact dl_iterate_first_nonnull T pre info rest data hpre hinfo
  · intro images h
    exact dl_iterate_all_null T images data h
  · intro hs he images h p
    rw [dl_iterate_all_null T images data h]
    simp [he]

/-- C18 at a concrete input: of the images `null_base_image`, `scenario_image`, `later_image`
the enumeration records the range of `scenario_image`, the first one with a non-null base. -/
theorem C18_first_nonnull_image_witness :
    dl_iterate_phdr (callback lp64) ([null_base_image] ++ scenario_image :: [later_image])
        globals_initial
      = callback lp64 scenario_image globals_initial :=
  (C18_first_nonnull_image lp64 globals_initial).2.2.1 [null_base_image] scenario_image
    [later_image] (by decide) (by decide)

/-! ## The load range of a segment table (C15) -/

/-- C15: for every segment table in which, for each loadable segment, `p_vaddr + p_memsz` and
its rounding up stay inside the machine word, `phdr_table_get_load_size` ignores the segments
that are not loadable and yields `min` = the least `p_vaddr` over the loadable segments rounded
down to a page boundary and `max` = the greatest `p_vaddr + p_memsz` over the loadable segments
rounded up to a page boundary, and returns `max - min` (also with null out pointers). So `min`
and `max` are page multiples, and `min <= p_vaddr` and `p_vaddr + p_memsz <= max` for every
loadable segment. When no segment is loadable it yields `min = 0`, `max = 0` and returns 0. -/
theorem C15_load_range (T : Target) (tbl : List Phdr) (hpage : 0 < T.PAGE_SIZE)
    (hfit : ∀ seg ∈ tbl, seg.p_type = PT_LOAD →
      seg.p_vaddr + seg.p_memsz + (T.PAGE_SIZE - 1) < T.modulus) :
    ∃ mn mx,
      phdr_table_get_load_size T tbl true true =
        { ret := mx - mn, out_min_vaddr := some mn, out_max_vaddr := some mx } ∧
      (phdr_table_get_load_size T tbl false false).ret = mx - mn ∧
      phdr_table_get_load_size T (tbl.filter (fun seg => decide (seg.p_type = PT_LOAD)))
        true true = phdr_table_get_load_size T tbl true true ∧
      T.PAGE_SIZE ∣ mn ∧ T.PAGE_SIZE ∣ mx ∧ mn ≤ mx ∧
      (∀ seg ∈ tbl, seg.p_type = PT_LOAD →
        mn ≤ seg.p_vaddr ∧ seg.p_vaddr + seg.p_memsz ≤ mx) ∧
      ((∀ seg ∈ tbl, seg.p_type ≠ PT_LOAD) → mn = 0 ∧ mx = 0) ∧
      ((∃ seg ∈ tbl, seg.p_type = PT_LOAD) →
        (∃ lo ∈ tbl, lo.p_type = PT_LOAD ∧
          (∀ seg ∈ tbl, seg.p_type = PT_LOAD → lo.p_vaddr ≤ seg.p_vaddr) ∧
          mn ≤ lo.p_vaddr ∧ lo.p_vaddr < mn + T.PAGE_SIZE) ∧
        (∃ hi ∈ tbl, hi.p_type = PT_LOAD ∧
          (∀ seg ∈ tbl, seg.p_type = PT_LOAD →
            seg.p_vaddr + seg.p_memsz ≤ hi.p_vaddr + hi.p_memsz) ∧
          hi.p_vaddr + hi.p_memsz ≤ mx ∧ mx < hi.p_vaddr + hi.p_memsz + T.PAGE_SIZE)) := by
  have hfilter : phdr_table_get_load_size T
      (tbl.filter (fun seg => decide (seg.p_type = PT_LOAD))) true true
      = phdr_table_get_load_size T tbl true true := by
    unfold phdr_table_get_load_size
    rw [scan_loop_filter]
  have hend : ∀ seg ∈ tbl, seg.p_type = PT_LOAD →
      (seg.p_vaddr + seg.p_memsz) % T.modulus = seg.p_vaddr + seg.p_memsz := by
    intro seg hs hl
    exact Nat.mod_eq_of_lt (by have := hfit seg hs hl; omega)
  by_cases hany : ∃ seg ∈ tbl, seg.p_type = PT_LOAD
  · obtain ⟨s0, hs0, hl0⟩ := hany
    obtain ⟨hf, ⟨_, hmin2⟩, hmin3, ⟨_, hmax2⟩, hmax3⟩ := scan_loop_bounds T
      { min_vaddr := UINTPTR_MAX T, max_vaddr := 0, found_pt_load := false } tbl
    generalize hst : scan_loop T
      { min_vaddr := UINTPTR_MAX T, max_vaddr := 0, found_pt_load := false } tbl = st
      at hf hmin2 hmin3 hmax2 hmax3
    have hfound : st.found_pt_load = true := hf.mpr (Or.inr ⟨s0, hs0, hl0⟩)
    have hlo : ∃ lo ∈ tbl, lo.p_type = PT_LOAD ∧ st.min_vaddr = lo.p_vaddr := by
      rcases hmin3 with h | h
      · refine ⟨s0, hs0, hl0, ?_⟩
        have h1 := hmin2 s0 hs0 hl0
        have h2 := hfit s0 hs0 hl0
        simp only [UINTPTR_MAX] at h
        omega
      · exact h
    have hhi : ∃ hi ∈ tbl, hi.p_type = PT_LOAD ∧ st.max_vaddr = hi.p_vaddr + hi.p_memsz := by
      rcases hmax3 with h | ⟨s, hs, hl, he⟩
      · refine ⟨s0, hs0, hl0, ?_⟩
        have h1 := hmax2 s0 hs0 hl0
        rw [hend s0 hs0 hl0] at h1
        simp only at h
        omega
      · exact ⟨s, hs, hl, by rw [he, hend s hs hl]⟩
    obtain ⟨lo, hlo_mem, hlo_load, hlo_eq⟩ := hlo
    obtain ⟨hi, hhi_mem, hhi_load, hhi_eq⟩ := hhi
    have hfit_hi := hfit hi hhi_mem hhi_load
    have hrs := PAGE_START_round T st.min_vaddr hpage
    have hre := PAGE_END_round T st.max_vaddr hpage (by rw [hhi_eq]; exact hfit_hi)
    have hlo_le_hi : lo.p_vaddr ≤ hi.p_vaddr + hi.p_memsz := by
      have h1 := hmax2 lo hlo_mem hlo_load
      rw [hend lo hlo_mem hlo_load] at h1
      omega
    have hmn_mx : PAGE_START T st.min_vaddr ≤ PAGE_END T st.max_vaddr := by omega
    have hmx_lt : PAGE_END T st.max_vaddr < T.modulus := by omega
    have hret : (PAGE_END T st.max_vaddr + T.modulus - PAGE_START T st.min_vaddr % T.modulus)
        % T.modulus = PAGE_END T st.max_vaddr - PAGE_START T st.min_vaddr := by
      rw [Nat.mod_eq_of_lt (Nat.lt_of_le_of_lt hmn_mx hmx_lt)]
      have h1 : PAGE_END T st.max_vaddr + T.modulus - PAGE_START T st.min_vaddr
          = (PAGE_END T st.max_vaddr - PAGE_START T st.min_vaddr) + T.modulus := by omega
      rw [h1, Nat.add_mod_right]
      exact Nat.mod_eq_of_lt (by omega)
    refine ⟨PAGE_START T st.min_vaddr, PAGE_END T st.max_vaddr, ?_, ?_, hfilter, hrs.1, hre.1,
      hmn_mx, ?_, ?_, ?_⟩
    · unfold phdr_table_get_load_size
      simp only [hst, hfound, Bool.not_true, Bool.false_eq_true, if_false, if_true, hret]
    · unfold phdr_table_get_load_size
      simp only [hst, hfound, Bool.not_true, Bool.false_eq_true, if_false, hret]
    · intro seg hs hl
      have h1 := hmin2 seg hs hl
      have h2 := hmax2 seg hs hl
      rw [hend seg hs hl] at h2
      omega
    · intro hnone
      exact absurd hl0 (hnone s0 hs0)
    · intro _
      refine ⟨⟨lo, hlo_mem, hlo_load, ?_, by omega, by omega⟩,
        ⟨hi, hhi_mem, hhi_load, ?_, by omega, by omega⟩⟩
      · intro seg hs hl
        have h1 := hmin2 seg hs hl
        omega
      · intro seg hs hl
        have h2 := hmax2 seg hs hl
        rw [hend seg hs hl] at h2
        omega
  · have hnone : ∀ seg ∈ tbl, seg.p_type ≠ PT_LOAD := fun seg hs hl => hany ⟨seg, hs, hl⟩
    have hst := scan_loop_no_load T
      { min_vaddr := UINTPTR_MAX T, max_vaddr := 0, found_pt_load := false } tbl hnone
    have hz : PAGE_START T 0 = 0 := by simp [PAGE_START]
    refine ⟨0, 0, ?_, ?_, hfilter, Nat.dvd_zero _, Nat.dvd_zero _, Nat.le_refl _, ?_, ?_, ?_⟩
    · unfold phdr_table_get_load_size
      simp [hst, hz, PAGE_END_zero]
    · unfold phdr_table_get_load_size
      simp [hst, hz, PAGE_END_zero]
    · intro seg hs hl
      exact absurd hl (hnone seg hs)
    · intro _
      exact ⟨rfl, rfl⟩
    · intro h
      exact absurd h hany

/-- C15 at a concrete input: the table `mixed_table` on a 64-bit target with 4 KiB pages
satisfies the hypotheses, so its load range has the stated properties. -/
theorem C15_load_range_witness :
    ∃ mn mx,
      phdr_table_get_load_size lp64 mixed_table true true =
        { ret := mx - mn, out_min_vaddr := some mn, out_max_vaddr := some mx } ∧
      (phdr_table_get_load_size lp64 mixed_table false false).ret = mx - mn ∧
      phdr_table_get_load_size lp64
        (mixed_table.filter (fun seg => decide (seg.p_type = PT_LOAD))) true true
        = phdr_table_get_load_size lp64 mixed_table true true ∧
      lp64.PAGE_SIZE ∣ mn ∧ lp64.PAGE_SIZE ∣ mx ∧ mn ≤ mx ∧
      (∀ seg ∈ mixed_table, seg.p_type = PT_LOAD →
        mn ≤ seg.p_vaddr ∧ seg.p_vaddr + seg.p_memsz ≤ mx) ∧
      ((∀ seg ∈ mixed_table, seg.p_type ≠ PT_LOAD) → mn = 0 ∧ mx = 0) ∧
      ((∃ seg ∈ mixed_table, seg.p_type = PT_LOAD) →
        (∃ lo ∈ mixed_table, lo.p_type = PT_LOAD ∧
          (∀ seg ∈ mixed_table, seg.p_type = PT_LOAD → lo.p_vaddr ≤ seg.p_vaddr) ∧
          mn ≤ lo.p_vaddr ∧ lo.p_vaddr < mn + lp64.PAGE_SIZE) ∧
        (∃ hi ∈ mixed_table, hi.p_type = PT_LOAD ∧
          (∀ seg ∈ mixed_table, seg.p_type = PT_LOAD →
            seg.p_vaddr + seg.p_memsz ≤ hi.p_vaddr + hi.p_memsz) ∧
          hi.p_vaddr + hi.p_memsz ≤ mx ∧ mx < hi.p_vaddr + hi.p_memsz + lp64.PAGE_SIZE)) :=
  C15_load_range lp64 mixed_table (by decide) (by decide)

end Bionic
